import Mathlib

/-!
# Page-behaviour script `v-massaj/js/main.js`

A shallow embedding of the script: the DOM state the script reads and writes is a
record `Page`, every function of the script is a function on `Page`, the listener
slots the script fills at start-up are a record `Registry`, and browser events are
dispatched to whatever the registry holds.  JavaScript numbers are modelled by exact
rationals (`ℚ`), timer delays and the clock by natural numbers.
-/

namespace FormulaTela

/-! ## DOM and jQuery primitives used by the script -/

/-- The token set behind `element.classList` / the `class` attribute, in order. -/
abbrev ClassList := List String

/-- DOM method `classList.add(c)`: appends the token unless it is already present. -/
def classListAdd (l : ClassList) (c : String) : ClassList :=
  if c ∈ l then l else l ++ [c]

/-- DOM method `classList.remove(c)`: removes the token. -/
def classListRemove (l : ClassList) (c : String) : ClassList :=
  l.filter (fun x => decide (x ≠ c))

/-- DOM method `classList.toggle(c)`: removes the token when present, appends it otherwise. -/
def classListToggle (l : ClassList) (c : String) : ClassList :=
  if c ∈ l then classListRemove l c else classListAdd l c

/-- The jQuery method `.addClass(c)`: appends the class name unless it is already present. -/
def addClass (l : ClassList) (c : String) : ClassList :=
  if c ∈ l then l else l ++ [c]

/-- The jQuery method `.removeClass(c)`: removes every occurrence of the class name. -/
def removeClass (l : ClassList) (c : String) : ClassList :=
  l.filter (fun x => decide (x ≠ c))

/-- Modelled from the spec: the external collapse plugin call `.collapse("hide")` on
`.navbar-collapse`, which is not part of this script; the spec says it forces the
mobile nav menu to its collapsed/hidden state.  The argument and result are the
"menu is shown" flag. -/
def collapseHide (_shown : Bool) : Bool := false

/-- The two inline style properties of `.preloader` that the script writes. -/
structure Style where
  opacity : String
  display : String
  deriving DecidableEq, Repr

/-- The CSS `background-position` of `.home #parallax`, both offsets in pixels. -/
structure BackgroundPosition where
  x : ℚ
  y : ℚ
  deriving DecidableEq, Repr

/-- The variables captured by the `animateScroll` arrow function inside `scrollTo`:
`start`, `change`, `duration` and the mutable `currentTime`. -/
structure ScrollClosure where
  start : ℚ
  change : ℚ
  duration : ℚ
  currentTime : Nat
  deriving DecidableEq, Repr

/-- The functions the script hands to `setTimeout`. -/
inductive Callback where
  | fadeout
  | animateScroll (env : ScrollClosure)
  deriving DecidableEq, Repr

/-- A pending timer: the earliest clock value at which it may fire, and its callback. -/
structure Timer where
  due : Nat
  callback : Callback
  deriving DecidableEq, Repr

/-- The browser state the script reads and writes. -/
structure Page where
  /-- Value of `window.pageYOffset`, also returned by `$(window).scrollTop()`. -/
  pageYOffset : ℚ
  /-- Value of `offsetTop` of `.navbar-area`. -/
  navbarOffsetTop : ℚ
  /-- Class list of `.navbar-area`. -/
  navbarArea : ClassList
  /-- Class list of `.left-area`. -/
  leftArea : ClassList
  /-- Class list of `.navbar-toggler`. -/
  navbarToggler : ClassList
  /-- Whether the `.navbar-collapse` menu is shown. -/
  navbarCollapseShown : Bool
  /-- Value of `background-position` of `.home #parallax`. -/
  parallaxBackground : BackgroundPosition
  /-- Inline style of `.preloader`. -/
  preloader : Style
  /-- Value of `document.documentElement.scrollTop`. -/
  rootScrollTop : ℚ
  /-- Current time. -/
  clock : Nat
  /-- Clock value at which the `load` event was delivered, if it has been. -/
  loadedAt : Option Nat
  /-- Timers created by `setTimeout` that have not fired yet, oldest first. -/
  timers : List Timer
  /-- Number of `setTimeout` calls made so far (the next timer id). -/
  nextTimerId : Nat
  /-- The timer callbacks that have run so far, oldest first. -/
  executed : List Callback
  deriving DecidableEq, Repr

/-- Browser function `setTimeout(cb, delay)`: queues the callback, due `delay` after the current time. -/
def setTimeout (cb : Callback) (delay : Nat) (s : Page) : Page :=
  { s with timers := s.timers ++ [⟨s.clock + delay, cb⟩], nextTimerId := s.nextTimerId + 1 }

/-! ## The functions of the script -/

/-- Function `fadeout` (lines 11-14). -/
def fadeout (s : Page) : Page :=
  let s := { s with preloader := { s.preloader with opacity := "0" } }
  { s with preloader := { s.preloader with display := "none" } }

/-- The function assigned to `window.onload` (lines 7-9). -/
def onloadHandler (s : Page) : Page :=
  setTimeout Callback.fadeout 200 s

/-- The first function assigned to `window.onscroll` (lines 20-31). -/
def onscrollHeader (s : Page) : Page :=
  let sticky := s.navbarOffsetTop
  if s.pageYOffset > sticky then
    { s with navbarArea := classListAdd s.navbarArea "sticky" }
  else
    { s with navbarArea := classListRemove s.navbarArea "sticky" }

/-- The second function assigned to `window.onscroll` (lines 35-45). -/
def onscrollSidebar (s : Page) : Page :=
  let sticky := s.navbarOffsetTop
  if s.pageYOffset > sticky then
    { s with leftArea := classListAdd s.leftArea "sticky" }
  else
    { s with leftArea := classListRemove s.leftArea "sticky" }

/-- The click listener added to `.navbar-toggler` (lines 54-56). -/
def navbarTogglerClick (s : Page) : Page :=
  { s with navbarToggler := classListToggle s.navbarToggler "active" }

/-- The handler delegated from `document` for clicks in `section, footer`
(lines 58-63). -/
def sectionFooterClick (s : Page) : Page :=
  let s := { s with navbarCollapseShown := collapseHide s.navbarCollapseShown }
  let s := { s with navbarToggler := removeClass s.navbarToggler "active" }
  { s with navbarToggler := addClass s.navbarToggler "collapsed" }

/-- Function `parallax` (lines 82-85). -/
def parallax (s : Page) : Page :=
  let scrolled := (s.pageYOffset - 600) / 11 - 1
  { s with parallaxBackground := ⟨0, -scrolled⟩ }

/-- The constant `increment` of `scrollTo` (line 116). -/
def increment : Nat := 20

/-- The arrow function `animateScroll` (lines 119-130); the two statements that
would compute and assign the eased value are comments in the source. -/
def animateScroll (env : ScrollClosure) (s : Page) : Page :=
  let env := { env with currentTime := env.currentTime + increment }
  if (env.currentTime : ℚ) < env.duration then
    setTimeout (Callback.animateScroll env) increment s
  else
    s

/-- Function `scrollTo(element, to, duration)` (lines 112-133), with `element` the
document root, the only element the script passes. -/
def scrollTo (toPos duration : ℚ) (s : Page) : Page :=
  let start := s.rootScrollTop
  let change := toPos - start
  animateScroll { start := start, change := change, duration := duration, currentTime := 0 } s

/-- The function assigned to `onclick` of `.scroll-top` (lines 143-145); `to` and
`duration` take their defaults `0` and `1000`. -/
def scrollTopOnclick (s : Page) : Page :=
  scrollTo 0 1000 s

/-- Function `Math.easeInOutQuad` (lines 135-141). -/
def easeInOutQuad (t b c d : ℚ) : ℚ :=
  let t := t / (d / 2)
  if t < 1 then c / 2 * t * t + b
  else
    let t := t - 1;
    -c / 2 * (t * (t - 2) - 1) + b

/-! ## Listener registration and event dispatch -/

/-- The listeners the script can register. -/
inductive Listener where
  | onloadHandler
  | onscrollHeader
  | onscrollSidebar
  | navbarTogglerClick
  | sectionFooterClick
  | parallax
  | scrollTopOnclick
  deriving DecidableEq, Repr

/-- The listener slots the script writes. -/
structure Registry where
  /-- Slot `window.onload`. -/
  windowOnload : Option Listener
  /-- Slot `window.onscroll`. -/
  windowOnscroll : Option Listener
  /-- Listeners added with `$(window).scroll(...)`. -/
  jqWindowScroll : List Listener
  /-- Listeners added with `navbarToggler.addEventListener("click", ...)`. -/
  togglerClick : List Listener
  /-- Handlers delegated with `$(document).on("click", selector, ...)`, each with the
  tag names of its selector. -/
  jqDocumentClick : List (List String × Listener)
  /-- Slot `onclick` of `.scroll-top`. -/
  scrollTopOnclick : Option Listener
  deriving DecidableEq, Repr

/-- No listener registered. -/
def Registry.empty : Registry :=
  { windowOnload := none, windowOnscroll := none, jqWindowScroll := [],
    togglerClick := [], jqDocumentClick := [], scrollTopOnclick := none }

/-- The top-level statements of the script, in source order, for a document whose
`document.documentElement.clientWidth` is `clientWidth`. -/
def mainScript (clientWidth : Int) : Registry :=
  let r := Registry.empty
  let r := { r with windowOnload := some Listener.onloadHandler }
  let r := { r with windowOnscroll := some Listener.onscrollHeader }
  let r := if clientWidth > 11480 then
      { r with windowOnscroll := some Listener.onscrollSidebar }
    else r
  let r := { r with togglerClick := r.togglerClick ++ [Listener.navbarTogglerClick] }
  let r := { r with jqDocumentClick :=
      r.jqDocumentClick ++ [(["section", "footer"], Listener.sectionFooterClick)] }
  let r := if clientWidth > 1200 then
      { r with jqWindowScroll := r.jqWindowScroll ++ [Listener.parallax] }
    else r
  { r with scrollTopOnclick := some Listener.scrollTopOnclick }

/-- Runs the function a listener stands for. -/
def runListener : Listener → Page → Page
  | Listener.onloadHandler => onloadHandler
  | Listener.onscrollHeader => onscrollHeader
  | Listener.onscrollSidebar => onscrollSidebar
  | Listener.navbarTogglerClick => navbarTogglerClick
  | Listener.sectionFooterClick => sectionFooterClick
  | Listener.parallax => parallax
  | Listener.scrollTopOnclick => scrollTopOnclick

/-- Runs the content of a single-listener slot such as `window.onscroll`. -/
def runSlot : Option Listener → Page → Page
  | none, s => s
  | some l, s => runListener l s

/-- Runs a list of listeners in registration order. -/
def runAll (ls : List Listener) (s : Page) : Page :=
  ls.foldl (fun s l => runListener l s) s

/-- Runs a timer callback. -/
def runCallback : Callback → Page → Page
  | Callback.fadeout => fadeout
  | Callback.animateScroll env => animateScroll env

/-- The timer at index `i` fires if it exists and is due: it leaves the queue, is
recorded, and its callback runs. -/
def fireTimer (i : Nat) (s : Page) : Page :=
  match s.timers[i]? with
  | none => s
  | some t =>
    if t.due ≤ s.clock then
      runCallback t.callback
        { s with timers := s.timers.eraseIdx i, executed := s.executed ++ [t.callback] }
    else s

/-- Which listened-to element a click lands on. -/
inductive ClickTarget where
  | navbarToggler
  | scrollTop
  | other
  deriving DecidableEq, Repr

/-- Browser events. -/
inductive Event where
  /-- The page finished loading. -/
  | load
  /-- A scroll event observed with `pageYOffset = P` and `.navbar-area` at
  `offsetTop = T`. -/
  | scroll (P T : ℚ)
  /-- A click; `path` lists the tag names of the clicked element and its ancestors. -/
  | click (target : ClickTarget) (path : List String)
  /-- Time advances by `dt`. -/
  | tick (dt : Nat)
  /-- The browser fires the pending timer at index `i`. -/
  | fire (i : Nat)
  deriving DecidableEq, Repr

/-- Delegation by jQuery: the handler runs once for every element of the click path
that matches the selector. -/
def runDelegated (path : List String) (s : Page) (d : List String × Listener) : Page :=
  (path.filter (fun tag => decide (tag ∈ d.1))).foldl (fun s _ => runListener d.2 s) s

/-- Delivers one event to the listeners of the registry.  The browser delivers `load`
once per page, so a second `load` does nothing. -/
def dispatch (r : Registry) (s : Page) : Event → Page
  | Event.load =>
    match s.loadedAt with
    | some _ => s
    | none => runSlot r.windowOnload { s with loadedAt := some s.clock }
  | Event.scroll P T =>
    let s := { s with pageYOffset := P, navbarOffsetTop := T }
    runAll r.jqWindowScroll (runSlot r.windowOnscroll s)
  | Event.click target path =>
    let s := match target with
      | ClickTarget.navbarToggler => runAll r.togglerClick s
      | ClickTarget.scrollTop => runSlot r.scrollTopOnclick s
      | ClickTarget.other => s
    r.jqDocumentClick.foldl (runDelegated path) s
  | Event.tick dt => { s with clock := s.clock + dt }
  | Event.fire i => fireTimer i s

/-- Delivers a sequence of events. -/
def run (r : Registry) (s : Page) (es : List Event) : Page :=
  es.foldl (dispatch r) s

/-- A page as the browser hands it to the script: nothing loaded, no timer. -/
def freshPage (navbarArea leftArea navbarToggler : ClassList) (shown : Bool)
    (bg : BackgroundPosition) (preloader : Style) (scrollTop : ℚ) : Page :=
  { pageYOffset := scrollTop, navbarOffsetTop := 0, navbarArea := navbarArea,
    leftArea := leftArea, navbarToggler := navbarToggler, navbarCollapseShown := shown,
    parallaxBackground := bg, preloader := preloader, rootScrollTop := scrollTop,
    clock := 0, loadedAt := none, timers := [], nextTimerId := 0, executed := [] }

/-- A sample page of the template: open mobile menu, visible preloader. -/
def samplePage : Page :=
  freshPage ["navbar-area"] ["left-area"] ["navbar-toggler", "active"] true ⟨0, 0⟩
    ⟨"1", "block"⟩ 0

/-- The events of a timer schedule: for each pair `(dt, i)`, time advances by `dt` and
then the browser fires the pending timer at index `i`. -/
def timerEvents : List (Nat × Nat) → List Event
  | [] => []
  | (dt, i) :: rest => Event.tick dt :: Event.fire i :: timerEvents rest

/-- The schedule on which the timer at index `i` fires `n` times, each time one
`increment` after the previous firing. -/
def chainSchedule (i n : Nat) : List (Nat × Nat) :=
  List.replicate n (increment, i)

/-- Number of pending timers whose callback is `fadeout`. -/
def pendingFadeouts (s : Page) : Nat :=
  (s.timers.map Timer.callback).count Callback.fadeout

/-- Number of times `fadeout` has run. -/
def fadeoutRuns (s : Page) : Nat :=
  s.executed.count Callback.fadeout

/-- The invariant of the preloader controller, for a page whose preloader style was
`initial` when the script started. -/
structure FadeoutInvariant (initial : Style) (s : Page) : Prop where
  /-- One `fadeout` timer exists per delivered `load` event, pending or already run. -/
  scheduled_once : pendingFadeouts s + fadeoutRuns s = if s.loadedAt.isSome then 1 else 0
  /-- A pending `fadeout` timer is due 200 after the `load` event. -/
  due_after_load : ∀ t ∈ s.timers, t.callback = Callback.fadeout →
    ∃ t0, s.loadedAt = some t0 ∧ t.due = t0 + 200
  /-- Until `fadeout` runs the preloader style is the initial one. -/
  untouched : fadeoutRuns s = 0 → s.preloader = initial
  /-- Once `fadeout` has run the preloader is hidden, and 200 have passed since `load`. -/
  hidden : 0 < fadeoutRuns s →
    s.preloader = ⟨"0", "none"⟩ ∧ ∃ t0, s.loadedAt = some t0 ∧ t0 + 200 ≤ s.clock

/-- The states of one animation chain started by a click when `base` timers had been
created and none was pending: either one `animateScroll` timer is pending, with
`currentTime = 20 * (j + 1)` for some `j ≤ 48` and `j + 1` timers created, or none is
and 49 timers have been created. -/
def ChainInvariant (start change : ℚ) (base : Nat) (s : Page) : Prop :=
  (s.timers = [] ∧ s.nextTimerId = base + 49) ∨
  (∃ due j : Nat, j ≤ 48 ∧
    s.timers = [⟨due, Callback.animateScroll ⟨start, change, 1000, increment * (j + 1)⟩⟩] ∧
    s.nextTimerId = base + j + 1)

/-! ## Class-list lemmas -/

theorem mem_classListAdd (l : ClassList) (c x : String) :
    x ∈ classListAdd l c ↔ x ∈ l ∨ x = c := by
  unfold classListAdd
  split_ifs with h
  · constructor
    · intro hx; exact Or.inl hx
    · rintro (hx | rfl)
      · exact hx
      · exact h
  · simp

theorem mem_classListRemove (l : ClassList) (c x : String) :
    x ∈ classListRemove l c ↔ x ∈ l ∧ x ≠ c := by
  simp [classListRemove]

theorem mem_classListToggle (l : ClassList) (c x : String) :
    x ∈ classListToggle l c ↔ (x ∈ l ∧ x ≠ c) ∨ (x = c ∧ c ∉ l) := by
  unfold classListToggle
  split_ifs with h
  · rw [mem_classListRemove]
    constructor
    · intro hx; exact Or.inl hx
    · rintro (hx | ⟨_, hc⟩)
      · exact hx
      · exact absurd h hc
  · rw [mem_classListAdd]
    constructor
    · rintro (hx | rfl)
      · exact Or.inl ⟨hx, fun e => h (e ▸ hx)⟩
      · exact Or.inr ⟨rfl, h⟩
    · rintro (⟨hx, _⟩ | ⟨rfl, _⟩)
      · exact Or.inl hx
      · exact Or.inr rfl

theorem mem_addClass (l : ClassList) (c x : String) :
    x ∈ addClass l c ↔ x ∈ l ∨ x = c :=
  mem_classListAdd l c x

theorem mem_removeClass (l : ClassList) (c x : String) :
    x ∈ removeClass l c ↔ x ∈ l ∧ x ≠ c :=
  mem_classListRemove l c x

theorem classListAdd_idem (l : ClassList) (c : String) :
    classListAdd (classListAdd l c) c = classListAdd l c := by
  have h : c ∈ classListAdd l c := (mem_classListAdd l c c).2 (Or.inr rfl)
  generalize classListAdd l c = m at h ⊢
  unfold classListAdd
  rw [if_pos h]

theorem classListRemove_idem (l : ClassList) (c : String) :
    classListRemove (classListRemove l c) c = classListRemove l c := by
  simp [classListRemove, List.filter_filter]

theorem addClass_idem (l : ClassList) (c : String) :
    addClass (addClass l c) c = addClass l c :=
  classListAdd_idem l c

theorem removeClass_idem (l : ClassList) (c : String) :
    removeClass (removeClass l c) c = removeClass l c :=
  classListRemove_idem l c

theorem removeClass_addClass_of_ne (l : ClassList) (a c : String) (h : c ≠ a) :
    removeClass (addClass l c) a = addClass (removeClass l a) c := by
  unfold addClass
  by_cases hc : c ∈ l
  · have hc2 : c ∈ removeClass l a := (mem_removeClass l a c).2 ⟨hc, h⟩
    rw [if_pos hc, if_pos hc2]
  · have hc2 : c ∉ removeClass l a := fun hm => hc ((mem_removeClass l a c).1 hm).1
    rw [if_neg hc, if_neg hc2]
    simp [removeClass, List.filter_append, h]

/-! ## What the start-up code registers -/

theorem mainScript_windowOnscroll (W : Int) :
    (mainScript W).windowOnscroll =
      if W > 11480 then some Listener.onscrollSidebar else some Listener.onscrollHeader := by
  unfold mainScript
  split_ifs <;> rfl

theorem mainScript_jqWindowScroll (W : Int) :
    (mainScript W).jqWindowScroll = if W > 1200 then [Listener.parallax] else [] := by
  unfold mainScript
  split_ifs <;> rfl

theorem mainScript_togglerClick (W : Int) :
    (mainScript W).togglerClick = [Listener.navbarTogglerClick] := by
  unfold mainScript
  split_ifs <;> rfl

theorem mainScript_jqDocumentClick (W : Int) :
    (mainScript W).jqDocumentClick = [(["section", "footer"], Listener.sectionFooterClick)] := by
  unfold mainScript
  split_ifs <;> rfl

theorem mainScript_scrollTopOnclick (W : Int) :
    (mainScript W).scrollTopOnclick = some Listener.scrollTopOnclick := by
  unfold mainScript
  split_ifs <;> rfl

theorem mainScript_windowOnload (W : Int) :
    (mainScript W).windowOnload = some Listener.onloadHandler := by
  unfold mainScript
  split_ifs <;> rfl

/-- A scroll event after start-up: the environment values are stored, the content of
`window.onscroll` runs, then the parallax listener if it was registered. -/
theorem dispatch_scroll (W : Int) (s : Page) (P T : ℚ) :
    dispatch (mainScript W) s (Event.scroll P T) =
      (if W > 1200 then parallax else id)
        ((if W > 11480 then onscrollSidebar else onscrollHeader)
          { s with pageYOffset := P, navbarOffsetTop := T }) := by
  simp only [dispatch, mainScript_windowOnscroll, mainScript_jqWindowScroll]
  split_ifs <;> rfl

/-! ## Frame lemmas for the scroll handlers -/

theorem onscrollHeader_navbarArea (s : Page) :
    (onscrollHeader s).navbarArea =
      if s.pageYOffset > s.navbarOffsetTop then classListAdd s.navbarArea "sticky"
      else classListRemove s.navbarArea "sticky" := by
  unfold onscrollHeader
  dsimp only
  split_ifs <;> rfl

theorem onscrollSidebar_leftArea (s : Page) :
    (onscrollSidebar s).leftArea =
      if s.pageYOffset > s.navbarOffsetTop then classListAdd s.leftArea "sticky"
      else classListRemove s.leftArea "sticky" := by
  unfold onscrollSidebar
  dsimp only
  split_ifs <;> rfl

theorem onscrollHeader_leftArea (s : Page) : (onscrollHeader s).leftArea = s.leftArea := by
  unfold onscrollHeader
  dsimp only
  split_ifs <;> rfl

theorem onscrollSidebar_navbarArea (s : Page) :
    (onscrollSidebar s).navbarArea = s.navbarArea := by
  unfold onscrollSidebar
  dsimp only
  split_ifs <;> rfl

theorem onscrollHeader_parallaxBackground (s : Page) :
    (onscrollHeader s).parallaxBackground = s.parallaxBackground := by
  unfold onscrollHeader
  dsimp only
  split_ifs <;> rfl

theorem onscrollSidebar_parallaxBackground (s : Page) :
    (onscrollSidebar s).parallaxBackground = s.parallaxBackground := by
  unfold onscrollSidebar
  dsimp only
  split_ifs <;> rfl

theorem onscrollHeader_pageYOffset (s : Page) :
    (onscrollHeader s).pageYOffset = s.pageYOffset := by
  unfold onscrollHeader
  dsimp only
  split_ifs <;> rfl

theorem onscrollSidebar_pageYOffset (s : Page) :
    (onscrollSidebar s).pageYOffset = s.pageYOffset := by
  unfold onscrollSidebar
  dsimp only
  split_ifs <;> rfl

/-- Membership of a class after the add-or-remove step shared by both sticky handlers. -/
theorem mem_sticky_update (l : ClassList) (P T : ℚ) (c : String) :
    c ∈ (if P > T then classListAdd l "sticky" else classListRemove l "sticky") ↔
      (c = "sticky" ∧ P > T) ∨ (c ≠ "sticky" ∧ c ∈ l) := by
  split_ifs with h
  · rw [mem_classListAdd]
    by_cases hc : c = "sticky"
    · simp [hc, h]
    · simp [hc]
  · rw [mem_classListRemove]
    by_cases hc : c = "sticky"
    · simp [hc, h]
    · simp [hc]

/-- The scroll handlers, as the scroll event of a narrow page reaches them. -/
theorem dispatch_scroll_navbarArea_narrow (W : Int) (hW : W ≤ 11480) (s : Page) (P T : ℚ) :
    (dispatch (mainScript W) s (Event.scroll P T)).navbarArea =
      if P > T then classListAdd s.navbarArea "sticky"
      else classListRemove s.navbarArea "sticky" := by
  have hn : ¬ W > 11480 := by omega
  simp only [dispatch_scroll, if_neg hn]
  split_ifs <;> simp [parallax, onscrollHeader_navbarArea, *]

theorem dispatch_scroll_leftArea_narrow (W : Int) (hW : W ≤ 11480) (s : Page) (P T : ℚ) :
    (dispatch (mainScript W) s (Event.scroll P T)).leftArea = s.leftArea := by
  have hn : ¬ W > 11480 := by omega
  simp only [dispatch_scroll, if_neg hn]
  split_ifs <;> simp [parallax, onscrollHeader_leftArea]

theorem dispatch_scroll_leftArea_wide (W : Int) (hW : W > 11480) (s : Page) (P T : ℚ) :
    (dispatch (mainScript W) s (Event.scroll P T)).leftArea =
      if P > T then classListAdd s.leftArea "sticky"
      else classListRemove s.leftArea "sticky" := by
  have hp : W > 1200 := by omega
  simp only [dispatch_scroll, if_pos hW, if_pos hp]
  split_ifs <;> simp [parallax, onscrollSidebar_leftArea, *]

theorem dispatch_scroll_navbarArea_wide (W : Int) (hW : W > 11480) (s : Page) (P T : ℚ) :
    (dispatch (mainScript W) s (Event.scroll P T)).navbarArea = s.navbarArea := by
  have hp : W > 1200 := by omega
  simp only [dispatch_scroll, if_pos hW, if_pos hp]
  simp [parallax, onscrollSidebar_navbarArea]

theorem dispatch_scroll_parallaxBackground (W : Int) (s : Page) (P T : ℚ) :
    (dispatch (mainScript W) s (Event.scroll P T)).parallaxBackground =
      if W > 1200 then ⟨0, -((P - 600) / 11 - 1)⟩ else s.parallaxBackground := by
  rw [dispatch_scroll]
  split_ifs <;>
    simp [parallax, onscrollSidebar_parallaxBackground, onscrollHeader_parallaxBackground,
      onscrollSidebar_pageYOffset, onscrollHeader_pageYOffset]

/-! ## Claims about the scroll handlers -/

/-- C1: on a page whose client width is at most 11480, after a scroll event with
`pageYOffset = P` and `.navbar-area` at `offsetTop = T`, the header carries the class
"sticky" exactly when `P > T` (so not at `P = T`), and membership of every other class
is as before, whatever the class list was. -/
theorem header_sticky_iff (W : Int) (hW : W ≤ 11480) (P T : ℚ) (s : Page) :
    ("sticky" ∈ (dispatch (mainScript W) s (Event.scroll P T)).navbarArea ↔ P > T) ∧
    (P = T → "sticky" ∉ (dispatch (mainScript W) s (Event.scroll P T)).navbarArea) ∧
    (∀ c : String, c ≠ "sticky" →
      (c ∈ (dispatch (mainScript W) s (Event.scroll P T)).navbarArea ↔ c ∈ s.navbarArea)) := by
  rw [dispatch_scroll_navbarArea_narrow W hW]
  refine ⟨?_, ?_, ?_⟩
  · rw [mem_sticky_update]; simp
  · intro h
    rw [mem_sticky_update]; simp [h]
  · intro c hc
    rw [mem_sticky_update]; simp [hc]

/-- C2: for every client width `W` read at start-up: if `W ≤ 11480` the header handler
is the content of `window.onscroll`, and a scroll event sets "sticky" on `.navbar-area`
by `P > T` and leaves the class list of `.left-area` as it was; if `W > 11480` the
sidebar handler has replaced it, and a scroll event sets "sticky" on `.left-area` by
`P > T` (other classes as before) and leaves the class list of `.navbar-area` as it
was.  At `W = 11480` the header handler is selected. -/
theorem scroll_controller_selection (W : Int) (P T : ℚ) (s : Page) :
    (W ≤ 11480 →
      (mainScript W).windowOnscroll = some Listener.onscrollHeader ∧
      ("sticky" ∈ (dispatch (mainScript W) s (Event.scroll P T)).navbarArea ↔ P > T) ∧
      (dispatch (mainScript W) s (Event.scroll P T)).leftArea = s.leftArea) ∧
    (W > 11480 →
      (mainScript W).windowOnscroll = some Listener.onscrollSidebar ∧
      ("sticky" ∈ (dispatch (mainScript W) s (Event.scroll P T)).leftArea ↔ P > T) ∧
      (∀ c : String, c ≠ "sticky" →
        (c ∈ (dispatch (mainScript W) s (Event.scroll P T)).leftArea ↔ c ∈ s.leftArea)) ∧
      (dispatch (mainScript W) s (Event.scroll P T)).navbarArea = s.navbarArea) ∧
    (mainScript 11480).windowOnscroll = some Listener.onscrollHeader := by
  refine ⟨?_, ?_, ?_⟩
  · intro hW
    refine ⟨?_, ?_, dispatch_scroll_leftArea_narrow W hW s P T⟩
    · rw [mainScript_windowOnscroll, if_neg (by omega)]
    · rw [dispatch_scroll_navbarArea_narrow W hW, mem_sticky_update]; simp
  · intro hW
    refine ⟨?_, ?_, ?_, dispatch_scroll_navbarArea_wide W hW s P T⟩
    · rw [mainScript_windowOnscroll, if_pos hW]
    · rw [dispatch_scroll_leftArea_wide W hW, mem_sticky_update]; simp
    · intro c hc
      rw [dispatch_scroll_leftArea_wide W hW, mem_sticky_update]; simp [hc]
  · rw [mainScript_windowOnscroll, if_neg (by decide)]

/-- C3: when the client width exceeds 1200, a scroll event with scroll top `P` sets the
background position of `.home #parallax` to horizontal `0` and vertical
`-((P - 600) / 11 - 1) = (611 - P) / 11`; at `P = 0, 600, 1200` the vertical offset is
`611/11` (between 55.545 and 55.546), `1` and `-589/11` (between -53.546 and -53.545).
When the client width is at most 1200 no parallax listener is registered and a scroll
event leaves the background position as it was. -/
theorem parallax_background (W : Int) (P T : ℚ) (s : Page) :
    (W > 1200 →
      (dispatch (mainScript W) s (Event.scroll P T)).parallaxBackground.x = 0 ∧
      (dispatch (mainScript W) s (Event.scroll P T)).parallaxBackground.y
        = -((P - 600) / 11 - 1) ∧
      (dispatch (mainScript W) s (Event.scroll P T)).parallaxBackground.y = (611 - P) / 11 ∧
      (dispatch (mainScript W) s (Event.scroll 0 T)).parallaxBackground.y = 611 / 11 ∧
      (dispatch (mainScript W) s (Event.scroll 600 T)).parallaxBackground.y = 1 ∧
      (dispatch (mainScript W) s (Event.scroll 1200 T)).parallaxBackground.y = -589 / 11) ∧
    ((55545 : ℚ) / 1000 < 611 / 11 ∧ (611 : ℚ) / 11 < 55546 / 1000) ∧
    ((-53546 : ℚ) / 1000 < -589 / 11 ∧ (-589 : ℚ) / 11 < -53545 / 1000) ∧
    (W ≤ 1200 →
      (mainScript W).jqWindowScroll = [] ∧
      (dispatch (mainScript W) s (Event.scroll P T)).parallaxBackground
        = s.parallaxBackground) := by
  refine ⟨?_, by norm_num, by norm_num, ?_⟩
  · intro hW
    simp only [dispatch_scroll_parallaxBackground, if_pos hW]
    refine ⟨trivial, trivial, ?_, ?_, ?_, ?_⟩ <;> norm_num
    ring
  · intro hW
    rw [dispatch_scroll_parallaxBackground, if_neg (by omega), mainScript_jqWindowScroll,
      if_neg (by omega)]
    exact ⟨rfl, rfl⟩

/-- Witness for C1 on the sample page at width 1024: scrolled past the header the class
is present, level with it the class is absent. -/
theorem header_sticky_iff_witness :
    "sticky" ∈ (dispatch (mainScript 1024) samplePage (Event.scroll 5 3)).navbarArea ∧
    "sticky" ∉ (dispatch (mainScript 1024) samplePage (Event.scroll 3 3)).navbarArea :=
  ⟨(header_sticky_iff 1024 (by decide) 5 3 samplePage).1.2 (by norm_num),
   (header_sticky_iff 1024 (by decide) 3 3 samplePage).2.1 rfl⟩

/-- Witness for C2: width 1024 selects the header handler, width 20000 the sidebar
handler. -/
theorem scroll_controller_selection_witness :
    (mainScript 1024).windowOnscroll = some Listener.onscrollHeader ∧
    (dispatch (mainScript 1024) samplePage (Event.scroll 5 3)).leftArea = samplePage.leftArea ∧
    (mainScript 20000).windowOnscroll = some Listener.onscrollSidebar ∧
    "sticky" ∈ (dispatch (mainScript 20000) samplePage (Event.scroll 5 3)).leftArea ∧
    (dispatch (mainScript 20000) samplePage (Event.scroll 5 3)).navbarArea
      = samplePage.navbarArea :=
  ⟨((scroll_controller_selection 1024 5 3 samplePage).1 (by decide)).1,
   ((scroll_controller_selection 1024 5 3 samplePage).1 (by decide)).2.2,
   ((scroll_controller_selection 20000 5 3 samplePage).2.1 (by decide)).1,
   ((scroll_controller_selection 20000 5 3 samplePage).2.1 (by decide)).2.1.2 (by norm_num),
   ((scroll_controller_selection 20000 5 3 samplePage).2.1 (by decide)).2.2.2⟩

/-- Witness for C3: at width 1920 and scroll top 0 the vertical offset is `611/11`; at
width 800 the background position stays. -/
theorem parallax_background_witness :
    (dispatch (mainScript 1920) samplePage (Event.scroll 0 3)).parallaxBackground.y = 611 / 11 ∧
    (dispatch (mainScript 800) samplePage (Event.scroll 0 3)).parallaxBackground
      = samplePage.parallaxBackground :=
  ⟨((parallax_background 1920 0 3 samplePage).1 (by decide)).2.2.2.1,
   ((parallax_background 800 0 3 samplePage).2.2.2 (by decide)).2⟩

/-! ## Click handlers -/

/-- Running the same idempotent handler once per element of a non-empty list is
running it once. -/
theorem foldl_idem {α : Type} (f : Page → Page) (hf : ∀ s, f (f s) = f s) :
    ∀ (l : List α) (s : Page), l ≠ [] → l.foldl (fun s _ => f s) s = f s
  | [], _, h => absurd rfl h
  | [_], _, _ => rfl
  | _ :: b :: l, s, _ => by
    rw [List.foldl_cons, foldl_idem f hf (b :: l) (f s) (List.cons_ne_nil b l), hf]

/-- A click after start-up: the direct listener of the clicked element runs, then the
delegated handler once per `section` or `footer` on the click path. -/
theorem dispatch_click (W : Int) (s : Page) (target : ClickTarget) (path : List String) :
    dispatch (mainScript W) s (Event.click target path) =
      (path.filter (fun tag => decide (tag ∈ ["section", "footer"]))).foldl
        (fun s _ => sectionFooterClick s)
        (match target with
          | ClickTarget.navbarToggler => navbarTogglerClick s
          | ClickTarget.scrollTop => scrollTopOnclick s
          | ClickTarget.other => s) := by
  simp only [dispatch, mainScript_togglerClick, mainScript_jqDocumentClick,
    mainScript_scrollTopOnclick, List.foldl_cons, List.foldl_nil, runDelegated, runAll,
    runSlot, runListener]

theorem filter_section_footer_eq_nil (path : List String)
    (h : ∀ tag ∈ path, tag ≠ "section" ∧ tag ≠ "footer") :
    path.filter (fun tag => decide (tag ∈ ["section", "footer"])) = [] := by
  rw [List.filter_eq_nil_iff]
  intro tag ht
  have := h tag ht
  simp [this.1, this.2]

theorem filter_section_footer_ne_nil (path : List String)
    (h : "section" ∈ path ∨ "footer" ∈ path) :
    path.filter (fun tag => decide (tag ∈ ["section", "footer"])) ≠ [] := by
  intro hnil
  rw [List.filter_eq_nil_iff] at hnil
  rcases h with h | h
  · exact hnil _ h (by simp)
  · exact hnil _ h (by simp)

theorem sectionFooterClick_eq (s : Page) :
    sectionFooterClick s =
      { s with navbarCollapseShown := false,
               navbarToggler := addClass (removeClass s.navbarToggler "active") "collapsed" } :=
  rfl

theorem sectionFooterClick_idem (s : Page) :
    sectionFooterClick (sectionFooterClick s) = sectionFooterClick s := by
  simp only [sectionFooterClick_eq]
  rw [removeClass_addClass_of_ne _ _ _ (by decide), removeClass_idem, addClass_idem]

theorem onscrollHeader_idem (s : Page) :
    onscrollHeader (onscrollHeader s) = onscrollHeader s := by
  unfold onscrollHeader
  dsimp only
  split_ifs with h
  · simp only [if_pos h, classListAdd_idem]
  · simp only [if_neg h, classListRemove_idem]

theorem onscrollSidebar_idem (s : Page) :
    onscrollSidebar (onscrollSidebar s) = onscrollSidebar s := by
  unfold onscrollSidebar
  dsimp only
  split_ifs with h
  · simp only [if_pos h, classListAdd_idem]
  · simp only [if_neg h, classListRemove_idem]

theorem parallax_idem (s : Page) : parallax (parallax s) = parallax s := rfl

/-- A click on the toggler outside every `section` and `footer` runs the toggle
handler and nothing else. -/
theorem dispatch_click_toggler (W : Int) (s : Page) (path : List String)
    (h : ∀ tag ∈ path, tag ≠ "section" ∧ tag ≠ "footer") :
    dispatch (mainScript W) s (Event.click ClickTarget.navbarToggler path) =
      navbarTogglerClick s := by
  rw [dispatch_click, filter_section_footer_eq_nil path h]
  rfl

/-- A click inside a `section` or `footer` ends with one run of the delegated handler. -/
theorem dispatch_click_outside (W : Int) (s : Page) (target : ClickTarget)
    (path : List String) (h : "section" ∈ path ∨ "footer" ∈ path) :
    dispatch (mainScript W) s (Event.click target path) =
      sectionFooterClick
        (match target with
          | ClickTarget.navbarToggler => navbarTogglerClick s
          | ClickTarget.scrollTop => scrollTopOnclick s
          | ClickTarget.other => s) := by
  rw [dispatch_click, foldl_idem sectionFooterClick sectionFooterClick_idem _ _
    (filter_section_footer_ne_nil path h)]

theorem mem_toggle_toggle (l : ClassList) (a c : String) :
    c ∈ classListToggle (classListToggle l a) a ↔ c ∈ l := by
  simp only [mem_classListToggle]
  by_cases hc : c = a
  · subst hc
    by_cases hl : c ∈ l <;> simp [hl]
  · simp [hc]

theorem iterate_toggler_mem (n : Nat) (s : Page) (c : String) :
    c ∈ (navbarTogglerClick^[2 * n] s).navbarToggler ↔ c ∈ s.navbarToggler := by
  induction n generalizing s with
  | zero => simp
  | succ k ih =>
    have e : 2 * (k + 1) = 2 * k + 2 := by ring
    rw [e, Function.iterate_add_apply, ih]
    exact mem_toggle_toggle s.navbarToggler "active" c

theorem scrollTopOnclick_navbarToggler (s : Page) :
    (scrollTopOnclick s).navbarToggler = s.navbarToggler := by
  simp only [scrollTopOnclick, scrollTo, animateScroll, setTimeout]
  split_ifs <;> rfl

/-! ## Claims about the click handlers -/

/-- C6: for every class list of `.navbar-toggler` and every `n`, `2 * n` clicks on the
button (each running the toggle handler only, the button lying in no `section` or
`footer`) leave every class, "active" included, present exactly when it was present
before; one click flips membership of "active" and of no other class. -/
theorem toggler_even_clicks (W : Int) (path : List String)
    (hpath : ∀ tag ∈ path, tag ≠ "section" ∧ tag ≠ "footer") (s : Page) (n : Nat) :
    (∀ c : String,
      c ∈ ((fun p => dispatch (mainScript W) p
              (Event.click ClickTarget.navbarToggler path))^[2 * n] s).navbarToggler
        ↔ c ∈ s.navbarToggler) ∧
    ("active" ∈ (dispatch (mainScript W) s
        (Event.click ClickTarget.navbarToggler path)).navbarToggler
      ↔ "active" ∉ s.navbarToggler) ∧
    (∀ c : String, c ≠ "active" →
      (c ∈ (dispatch (mainScript W) s
          (Event.click ClickTarget.navbarToggler path)).navbarToggler
        ↔ c ∈ s.navbarToggler)) := by
  have hfun : (fun p => dispatch (mainScript W) p
      (Event.click ClickTarget.navbarToggler path)) = navbarTogglerClick :=
    funext fun p => dispatch_click_toggler W p path hpath
  rw [hfun, dispatch_click_toggler W s path hpath]
  refine ⟨fun c => iterate_toggler_mem n s c, ?_, ?_⟩
  · show "active" ∈ classListToggle s.navbarToggler "active" ↔ _
    rw [mem_classListToggle]; simp
  · intro c hc
    show c ∈ classListToggle s.navbarToggler "active" ↔ _
    rw [mem_classListToggle]; simp [hc]

/-- Witness for C6: four clicks on the toggler of the sample page keep "active", one
click removes it. -/
theorem toggler_even_clicks_witness :
    "active" ∈ ((fun p => dispatch (mainScript 1024) p
        (Event.click ClickTarget.navbarToggler ["button", "nav", "header", "body"]))^[2 * 2]
          samplePage).navbarToggler ∧
    "active" ∉ (dispatch (mainScript 1024) samplePage
        (Event.click ClickTarget.navbarToggler ["button", "nav", "header", "body"])).navbarToggler :=
  ⟨((toggler_even_clicks 1024 ["button", "nav", "header", "body"] (by decide) samplePage 2).1
      "active").2 (by decide),
   fun h => ((toggler_even_clicks 1024 ["button", "nav", "header", "body"] (by decide)
      samplePage 2).2.1.1 h) (by decide)⟩

/-- C7, as the claim states it, fails: on the sample page (toggler classes
"navbar-toggler" and "active") a click inside a `section` leaves the toggler with the
classes "navbar-toggler" and "collapsed", which is not the set holding "collapsed"
alone. -/
theorem outside_click_exact_class_set_counterexample :
    (dispatch (mainScript 1024) samplePage
        (Event.click ClickTarget.other ["p", "section", "body"])).navbarToggler
      = ["navbar-toggler", "collapsed"] ∧
    ¬ (∀ c : String,
        c ∈ (dispatch (mainScript 1024) samplePage
            (Event.click ClickTarget.other ["p", "section", "body"])).navbarToggler
          ↔ c = "collapsed") := by
  have h : (dispatch (mainScript 1024) samplePage
      (Event.click ClickTarget.other ["p", "section", "body"])).navbarToggler
        = ["navbar-toggler", "collapsed"] := by decide
  refine ⟨h, fun hall => ?_⟩
  have := (hall "navbar-toggler").1 (by rw [h]; decide)
  exact absurd this (by decide)

/-- C7 amended: whatever the page state and whatever was clicked, after a click inside
a `section` or `footer` the menu is hidden, the toggler has "collapsed" and lacks
"active", and every class other than "active" and "collapsed" is on the toggler exactly
when it was before: the other classes stay. -/
theorem outside_click_collapses (W : Int) (s : Page) (target : ClickTarget)
    (path : List String) (h : "section" ∈ path ∨ "footer" ∈ path) :
    (dispatch (mainScript W) s (Event.click target path)).navbarCollapseShown = false ∧
    "collapsed" ∈ (dispatch (mainScript W) s (Event.click target path)).navbarToggler ∧
    "active" ∉ (dispatch (mainScript W) s (Event.click target path)).navbarToggler ∧
    (∀ c : String, c ≠ "active" → c ≠ "collapsed" →
      (c ∈ (dispatch (mainScript W) s (Event.click target path)).navbarToggler
        ↔ c ∈ s.navbarToggler)) := by
  rw [dispatch_click_outside W s target path h, sectionFooterClick_eq]
  have hmem : ∀ c : String, c ≠ "active" →
      (c ∈ (match target with
          | ClickTarget.navbarToggler => navbarTogglerClick s
          | ClickTarget.scrollTop => scrollTopOnclick s
          | ClickTarget.other => s).navbarToggler ↔ c ∈ s.navbarToggler) := by
    intro c hc
    cases target
    · show c ∈ classListToggle s.navbarToggler "active" ↔ _
      rw [mem_classListToggle]; simp [hc]
    · show c ∈ (scrollTopOnclick s).navbarToggler ↔ _
      rw [scrollTopOnclick_navbarToggler]
    · exact Iff.rfl
  refine ⟨rfl, ?_, ?_, ?_⟩
  · show "collapsed" ∈ addClass _ "collapsed"
    rw [mem_addClass]; exact Or.inr rfl
  · show "active" ∉ addClass (removeClass _ "active") "collapsed"
    rw [mem_addClass, mem_removeClass]; simp
  · intro c hca hcc
    show c ∈ addClass (removeClass _ "active") "collapsed" ↔ _
    rw [mem_addClass, mem_removeClass, hmem c hca]; simp [hca, hcc]

/-- Witness for C7 amended: a click in the footer of the sample page hides the menu and
keeps the class "navbar-toggler". -/
theorem outside_click_collapses_witness :
    (dispatch (mainScript 1024) samplePage
        (Event.click ClickTarget.other ["a", "footer", "body"])).navbarCollapseShown = false ∧
    "navbar-toggler" ∈ (dispatch (mainScript 1024) samplePage
        (Event.click ClickTarget.other ["a", "footer", "body"])).navbarToggler :=
  ⟨(outside_click_collapses 1024 samplePage ClickTarget.other ["a", "footer", "body"]
      (by decide)).1,
   ((outside_click_collapses 1024 samplePage ClickTarget.other ["a", "footer", "body"]
      (by decide)).2.2.2 "navbar-toggler" (by decide) (by decide)).2 (by decide)⟩

/-! ## Idempotence -/

theorem dispatch_scroll_idem (W : Int) (s : Page) (P T : ℚ) :
    dispatch (mainScript W) (dispatch (mainScript W) s (Event.scroll P T)) (Event.scroll P T)
      = dispatch (mainScript W) s (Event.scroll P T) := by
  simp only [dispatch_scroll]
  by_cases h1 : W > 1200 <;> by_cases h2 : W > 11480 <;> by_cases h3 : P > T <;>
    simp [h1, h2, h3, parallax, onscrollHeader, onscrollSidebar, classListAdd_idem,
      classListRemove_idem]

theorem dispatch_click_other_idem (W : Int) (s : Page) (path : List String) :
    dispatch (mainScript W) (dispatch (mainScript W) s (Event.click ClickTarget.other path))
        (Event.click ClickTarget.other path)
      = dispatch (mainScript W) s (Event.click ClickTarget.other path) := by
  by_cases h : "section" ∈ path ∨ "footer" ∈ path
  · simp only [dispatch_click_outside W _ ClickTarget.other path h, sectionFooterClick_idem]
  · have hp : ∀ tag ∈ path, tag ≠ "section" ∧ tag ≠ "footer" := by
      intro tag ht
      constructor
      · rintro rfl; exact h (Or.inl ht)
      · rintro rfl; exact h (Or.inr ht)
    simp only [dispatch_click, filter_section_footer_eq_nil path hp, List.foldl_nil]

/-- C8, as the claim states it, fails for the navbar-toggle click handler: on the sample
page, handling the click twice leaves "active" on the toggler, handling it once removes
it, so the two resulting pages differ. -/
theorem toggle_handler_idempotent_counterexample :
    "active" ∈ (navbarTogglerClick (navbarTogglerClick samplePage)).navbarToggler ∧
    "active" ∉ (navbarTogglerClick samplePage).navbarToggler ∧
    navbarTogglerClick (navbarTogglerClick samplePage) ≠ navbarTogglerClick samplePage ∧
    dispatch (mainScript 1024)
        (dispatch (mainScript 1024) samplePage
          (Event.click ClickTarget.navbarToggler ["button", "nav", "header", "body"]))
        (Event.click ClickTarget.navbarToggler ["button", "nav", "header", "body"])
      ≠ dispatch (mainScript 1024) samplePage
          (Event.click ClickTarget.navbarToggler ["button", "nav", "header", "body"]) := by
  refine ⟨by decide, by decide, fun h => ?_, fun h => ?_⟩
  · exact absurd (congrArg Page.navbarToggler h) (by decide)
  · exact absurd (congrArg Page.navbarToggler h) (by decide)

/-- C8 amended: the header sticky handler, the sidebar sticky handler, the outside-click
collapse handler and the parallax handler are idempotent on every page state, and so is
handling the same scroll event, or the same click on an element without listener of
its own, twice in succession; the navbar-toggle handler is left out: two runs of it
restore the membership of every class. -/
theorem handlers_idempotent (W : Int) (s : Page) (P T : ℚ) (path : List String) :
    onscrollHeader (onscrollHeader s) = onscrollHeader s ∧
    onscrollSidebar (onscrollSidebar s) = onscrollSidebar s ∧
    sectionFooterClick (sectionFooterClick s) = sectionFooterClick s ∧
    parallax (parallax s) = parallax s ∧
    dispatch (mainScript W) (dispatch (mainScript W) s (Event.scroll P T)) (Event.scroll P T)
      = dispatch (mainScript W) s (Event.scroll P T) ∧
    dispatch (mainScript W) (dispatch (mainScript W) s (Event.click ClickTarget.other path))
        (Event.click ClickTarget.other path)
      = dispatch (mainScript W) s (Event.click ClickTarget.other path) ∧
    (∀ c : String,
      c ∈ (navbarTogglerClick (navbarTogglerClick s)).navbarToggler ↔ c ∈ s.navbarToggler) :=
  ⟨onscrollHeader_idem s, onscrollSidebar_idem s, sectionFooterClick_idem s, parallax_idem s,
   dispatch_scroll_idem W s P T, dispatch_click_other_idem W s path,
   fun c => mem_toggle_toggle s.navbarToggler "active" c⟩

/-! ## The easing function -/

theorem easeInOutQuad_of_lt (t b c d : ℚ) (h : t / (d / 2) < 1) :
    easeInOutQuad t b c d = c / 2 * (t / (d / 2)) * (t / (d / 2)) + b := by
  unfold easeInOutQuad
  simp only [if_pos h]

theorem easeInOutQuad_of_ge (t b c d : ℚ) (h : ¬ t / (d / 2) < 1) :
    easeInOutQuad t b c d
      = -c / 2 * ((t / (d / 2) - 1) * (t / (d / 2) - 1 - 2) - 1) + b := by
  unfold easeInOutQuad
  simp only [if_neg h]

/-- Monotonicity of the two branch formulas in the rescaled time `u = t / (d / 2)`. -/
theorem ease_branches_mono (b c u v : ℚ) (hc : 0 ≤ c) (hu : 0 ≤ u) (huv : u ≤ v)
    (hv : v ≤ 2) :
    (if u < 1 then c / 2 * u * u + b else -c / 2 * ((u - 1) * (u - 1 - 2) - 1) + b) ≤
    (if v < 1 then c / 2 * v * v + b else -c / 2 * ((v - 1) * (v - 1 - 2) - 1) + b) := by
  split_ifs with h1 h2 h2
  · nlinarith [mul_nonneg hc (sub_nonneg.2 huv), mul_nonneg hu hc,
      mul_nonneg (mul_nonneg hc (sub_nonneg.2 huv)) (add_nonneg hu (hu.trans huv))]
  · have hv1 : 1 ≤ v := not_lt.1 h2
    nlinarith [mul_nonneg hc (mul_nonneg (sub_nonneg.2 hv1) (sub_nonneg.2 hv)),
      mul_nonneg hc (mul_nonneg hu (sub_nonneg.2 h1.le)),
      mul_nonneg hc (sub_nonneg.2 h1.le)]
  · exact absurd (lt_of_le_of_lt huv h2) h1
  · have hu1 : 1 ≤ u := not_lt.1 h1
    nlinarith [mul_nonneg hc (mul_nonneg (sub_nonneg.2 huv)
      (add_nonneg (sub_nonneg.2 hv) (sub_nonneg.2 (huv.trans hv))))]

/-- Below the midpoint the function is the first branch, written around `b + c / 2`. -/
theorem easeInOutQuad_first_branch (t b c d : ℚ) (h : t / (d / 2) < 1) :
    easeInOutQuad t b c d
      = b + c / 2 + c / 2 * (t / (d / 2) - 1) * (t / (d / 2) + 1) := by
  rw [easeInOutQuad_of_lt t b c d h]; ring

/-- From the midpoint on the function is the second branch, written around `b + c / 2`. -/
theorem easeInOutQuad_second_branch (t b c d : ℚ) (h : 1 ≤ t / (d / 2)) :
    easeInOutQuad t b c d
      = b + c / 2 + c / 2 * (t / (d / 2) - 1) * (3 - t / (d / 2)) := by
  rw [easeInOutQuad_of_ge t b c d (not_lt.2 h)]; ring

/-- On `[0, d]` the distance of the value from `b + c / 2` is at most `|c|` times the
distance of the rescaled time from `1`. -/
theorem easeInOutQuad_near_mid (t b c d : ℚ) (h0 : 0 ≤ t / (d / 2))
    (h2 : t / (d / 2) ≤ 2) :
    |easeInOutQuad t b c d - (b + c / 2)| ≤ |c| * |t / (d / 2) - 1| := by
  have hc2 : |c / 2| = |c| / 2 := by rw [abs_div]; norm_num
  by_cases h : t / (d / 2) < 1
  · rw [easeInOutQuad_first_branch t b c d h, add_sub_cancel_left, abs_mul, abs_mul, hc2]
    have hle : |t / (d / 2) + 1| ≤ 2 := by
      rw [abs_of_nonneg (by linarith)]; linarith
    nlinarith [abs_nonneg c, abs_nonneg (t / (d / 2) - 1),
      mul_nonneg (abs_nonneg c) (abs_nonneg (t / (d / 2) - 1)),
      mul_le_mul_of_nonneg_left hle
        (mul_nonneg (abs_nonneg c) (abs_nonneg (t / (d / 2) - 1)))]
  · have h1 : 1 ≤ t / (d / 2) := not_lt.1 h
    rw [easeInOutQuad_second_branch t b c d h1, add_sub_cancel_left, abs_mul, abs_mul, hc2]
    have hle : |3 - t / (d / 2)| ≤ 2 := by
      rw [abs_of_nonneg (by linarith)]; linarith
    nlinarith [abs_nonneg c, abs_nonneg (t / (d / 2) - 1),
      mul_nonneg (abs_nonneg c) (abs_nonneg (t / (d / 2) - 1)),
      mul_le_mul_of_nonneg_left hle
        (mul_nonneg (abs_nonneg c) (abs_nonneg (t / (d / 2) - 1)))]

/-- The curve has no jump at the midpoint: values at times close to `d / 2` are close to
`b + c / 2`. -/
theorem easeInOutQuad_no_jump (b c d : ℚ) (hd : d ≠ 0) (ε : ℚ) (hε : 0 < ε) :
    ∃ δ : ℚ, 0 < δ ∧ ∀ t : ℚ, |t - d / 2| < δ →
      |easeInOutQuad t b c d - (b + c / 2)| < ε := by
  have hd2 : d / 2 ≠ 0 := div_ne_zero hd (by norm_num)
  have hpos : 0 < |d / 2| := abs_pos.2 hd2
  have hc1 : 0 < |c| + 1 := by linarith [abs_nonneg c]
  refine ⟨min |d / 2| (ε * |d / 2| / (|c| + 1)), lt_min hpos (by positivity), ?_⟩
  intro t ht
  have hu : t / (d / 2) - 1 = (t - d / 2) / (d / 2) := by field_simp
  have habs : |t / (d / 2) - 1| = |t - d / 2| / |d / 2| := by rw [hu, abs_div]
  have hlt1 : |t / (d / 2) - 1| < 1 := by
    rw [habs, div_lt_one hpos]
    exact lt_of_lt_of_le ht (min_le_left _ _)
  have hlt2 : |t / (d / 2) - 1| * (|c| + 1) < ε := by
    have h3 : |t - d / 2| < ε * |d / 2| / (|c| + 1) := lt_of_lt_of_le ht (min_le_right _ _)
    rw [lt_div_iff₀ hc1] at h3
    rw [habs, div_mul_eq_mul_div, div_lt_iff₀ hpos]
    exact h3
  have hb := abs_lt.1 hlt1
  have hnear := easeInOutQuad_near_mid t b c d (by linarith [hb.1]) (by linarith [hb.2])
  have hnn : 0 ≤ |t / (d / 2) - 1| := abs_nonneg _
  nlinarith [abs_nonneg c]

/-- C10: over exact rationals, for every `b`, `c` and `d ≠ 0`, `easeInOutQuad` goes from
`b` at `t = 0` to `b + c` at `t = d` and takes the value `b + c / 2` at the midpoint
`t = d / 2`, where the rescaled time `t / (d / 2)` is `1` and the second branch takes
over.  Below the midpoint the function is its first branch, from the midpoint on its
second branch, and both formulas give `b + c / 2` at rescaled time `1`; on `[0, d]` the
value stays within `|c|` times the rescaled distance from the midpoint of `b + c / 2`,
so the curve has no jump at the midpoint: values at times close enough to `d / 2` are
as close to `b + c / 2` as wanted.  For `d > 0`, `c ≥ 0` the value is non-decreasing in
`t` on `[0, d]`. -/
theorem easeInOutQuad_interpolates (b c d : ℚ) (hd : d ≠ 0) :
    easeInOutQuad 0 b c d = b ∧
    easeInOutQuad d b c d = b + c ∧
    d / 2 / (d / 2) = 1 ∧
    easeInOutQuad (d / 2) b c d = b + c / 2 ∧
    (∀ t : ℚ, t / (d / 2) < 1 →
      easeInOutQuad t b c d = c / 2 * (t / (d / 2)) * (t / (d / 2)) + b ∧
      easeInOutQuad t b c d
        = b + c / 2 + c / 2 * (t / (d / 2) - 1) * (t / (d / 2) + 1)) ∧
    (∀ t : ℚ, 1 ≤ t / (d / 2) →
      easeInOutQuad t b c d
        = -c / 2 * ((t / (d / 2) - 1) * (t / (d / 2) - 1 - 2) - 1) + b ∧
      easeInOutQuad t b c d
        = b + c / 2 + c / 2 * (t / (d / 2) - 1) * (3 - t / (d / 2))) ∧
    (∀ t : ℚ, 0 ≤ t / (d / 2) → t / (d / 2) ≤ 2 →
      |easeInOutQuad t b c d - easeInOutQuad (d / 2) b c d| ≤ |c| * |t / (d / 2) - 1|) ∧
    (∀ ε : ℚ, 0 < ε → ∃ δ : ℚ, 0 < δ ∧ ∀ t : ℚ, |t - d / 2| < δ →
      |easeInOutQuad t b c d - easeInOutQuad (d / 2) b c d| < ε) ∧
    (0 < d → 0 ≤ c → ∀ t t' : ℚ, 0 ≤ t → t ≤ t' → t' ≤ d →
      easeInOutQuad t b c d ≤ easeInOutQuad t' b c d) := by
  have hd2 : d / 2 ≠ 0 := div_ne_zero hd (by norm_num)
  have hmid : d / 2 / (d / 2) = 1 := div_self hd2
  have hend : d / (d / 2) = 2 := by field_simp
  have hval : easeInOutQuad (d / 2) b c d = b + c / 2 := by
    rw [easeInOutQuad_of_ge (d / 2) b c d (by rw [hmid]; norm_num), hmid]; ring
  refine ⟨?_, ?_, hmid, hval, ?_, ?_, ?_, ?_, ?_⟩
  · rw [easeInOutQuad_of_lt 0 b c d (by simp)]; simp
  · rw [easeInOutQuad_of_ge d b c d (by rw [hend]; norm_num), hend]; ring
  · intro t h
    exact ⟨easeInOutQuad_of_lt t b c d h, easeInOutQuad_first_branch t b c d h⟩
  · intro t h
    exact ⟨easeInOutQuad_of_ge t b c d (not_lt.2 h), easeInOutQuad_second_branch t b c d h⟩
  · intro t h0 h2
    rw [hval]
    exact easeInOutQuad_near_mid t b c d h0 h2
  · intro ε hε
    rw [hval]
    exact easeInOutQuad_no_jump b c d hd ε hε
  · intro hpos hc t t' ht htt ht'
    have hd2pos : 0 < d / 2 := by positivity
    have hu : 0 ≤ t / (d / 2) := div_nonneg ht hd2pos.le
    have huv : t / (d / 2) ≤ t' / (d / 2) := div_le_div_of_nonneg_right htt hd2pos.le
    have hv : t' / (d / 2) ≤ 2 :=
      le_of_le_of_eq (div_le_div_of_nonneg_right ht' hd2pos.le) hend
    have := ease_branches_mono b c _ _ hc hu huv hv
    unfold easeInOutQuad
    exact this

/-- Witness for C10 at `b = 1`, `c = 2`, `d = 4`: the value is `1` at `0` and `3` at `4`;
just below the midpoint, at `t = 19/10`, the value is within `2 * (1/20)` of the
midpoint value; and the value at `1` is at most the value at `3`. -/
theorem easeInOutQuad_interpolates_witness :
    easeInOutQuad 0 1 2 4 = 1 ∧ easeInOutQuad 4 1 2 4 = 1 + 2 ∧
    |easeInOutQuad (19 / 10) 1 2 4 - easeInOutQuad (4 / 2) 1 2 4|
      ≤ |(2 : ℚ)| * |(19 / 10 : ℚ) / (4 / 2) - 1| ∧
    easeInOutQuad 1 1 2 4 ≤ easeInOutQuad 3 1 2 4 :=
  ⟨(easeInOutQuad_interpolates 1 2 4 (by norm_num)).1,
   (easeInOutQuad_interpolates 1 2 4 (by norm_num)).2.1,
   (easeInOutQuad_interpolates 1 2 4 (by norm_num)).2.2.2.2.2.2.1 (19 / 10)
     (by norm_num) (by norm_num),
   (easeInOutQuad_interpolates 1 2 4 (by norm_num)).2.2.2.2.2.2.2.2 (by norm_num)
     (by norm_num) 1 3 (by norm_num) (by norm_num) (by norm_num)⟩

/-! ## Timers and the scroll-to-top animation -/

theorem run_cons (r : Registry) (s : Page) (e : Event) (es : List Event) :
    run r s (e :: es) = run r (dispatch r s e) es := rfl

theorem run_nil (r : Registry) (s : Page) : run r s [] = s := rfl

/-- The last pending timer fires once it is due. -/
theorem fireTimer_last (s : Page) (pre : List Timer) (t : Timer)
    (h : s.timers = pre ++ [t]) (hd : t.due ≤ s.clock) :
    fireTimer pre.length s =
      runCallback t.callback
        { s with timers := pre, executed := s.executed ++ [t.callback] } := by
  unfold fireTimer
  rw [h, List.getElem?_append_right (le_refl _)]
  simp [hd, List.eraseIdx_append_of_length_le]

theorem animateScroll_of_lt (env : ScrollClosure) (s : Page)
    (h : ((env.currentTime + increment : Nat) : ℚ) < env.duration) :
    animateScroll env s =
      setTimeout (Callback.animateScroll
        { env with currentTime := env.currentTime + increment }) increment s := by
  unfold animateScroll
  simp only [if_pos h]

theorem animateScroll_of_ge (env : ScrollClosure) (s : Page)
    (h : ¬ ((env.currentTime + increment : Nat) : ℚ) < env.duration) :
    animateScroll env s = s := by
  unfold animateScroll
  simp only [if_neg h]

/-- No timer callback and no passing of time writes the scroll position of the root. -/
theorem run_timerEvents_rootScrollTop (r : Registry) (sched : List (Nat × Nat)) :
    ∀ s : Page, (run r s (timerEvents sched)).rootScrollTop = s.rootScrollTop := by
  induction sched with
  | nil => intro s; rfl
  | cons p rest ih =>
    intro s
    obtain ⟨dt, i⟩ := p
    simp only [timerEvents, run_cons, ih]
    simp only [dispatch, fireTimer]
    split
    · rfl
    · split_ifs
      · rename_i t _ _
        cases hcb : t.callback with
        | fadeout => simp [runCallback, fadeout]
        | animateScroll env =>
          simp only [runCallback, animateScroll, setTimeout]
          split_ifs <;> rfl
      · rfl

theorem scrollTo_rootScrollTop (toPos duration : ℚ) (s : Page) :
    (scrollTo toPos duration s).rootScrollTop = s.rootScrollTop := by
  simp only [scrollTo, animateScroll, setTimeout]
  split_ifs <;> rfl

theorem animateScroll_frame (env : ScrollClosure) (s : Page) :
    { animateScroll env s with timers := s.timers, nextTimerId := s.nextTimerId } = s := by
  simp only [animateScroll, setTimeout]
  split_ifs <;> rfl

/-- One link of the animation chain: time advances by `increment`, the pending
`animateScroll` timer fires and its callback runs. -/
theorem chain_step (r : Registry) (s1 : Page) (pre : List Timer) (due : Nat)
    (env : ScrollClosure) (es : List Event)
    (h : s1.timers = pre ++ [⟨due, Callback.animateScroll env⟩])
    (hdue : due ≤ s1.clock + increment) :
    run r s1 (Event.tick increment :: Event.fire pre.length :: es) =
      run r (animateScroll env
        { s1 with clock := s1.clock + increment, timers := pre,
                  executed := s1.executed ++ [Callback.animateScroll env] }) es := by
  rw [run_cons, run_cons]
  congr 1
  show fireTimer pre.length { s1 with clock := s1.clock + increment } = _
  rw [fireTimer_last { s1 with clock := s1.clock + increment } pre
    ⟨due, Callback.animateScroll env⟩ h hdue]
  rfl

theorem cast_lt_duration (j : Nat) (h : j ≤ 47) :
    ((increment * (j + 1) + increment : Nat) : ℚ) < 1000 := by
  have h2 : increment * (j + 1) + increment < 1000 := by
    unfold increment; omega
  exact_mod_cast h2

/-- While fewer than 49 deferred callbacks have run, the chain keeps exactly one timer
pending, and every callback that runs creates one timer. -/
theorem chain_run (r : Registry) (st ch : ℚ) (pre : List Timer) :
    ∀ (k j : Nat) (s1 : Page) (due : Nat),
      s1.timers = pre ++ [⟨due, Callback.animateScroll ⟨st, ch, 1000, increment * (j + 1)⟩⟩] →
      due ≤ s1.clock + increment → j + k ≤ 48 →
      ∃ due2 : Nat,
        due2 ≤ (run r s1 (timerEvents (chainSchedule pre.length k))).clock + increment ∧
        (run r s1 (timerEvents (chainSchedule pre.length k))).timers =
          pre ++ [⟨due2, Callback.animateScroll ⟨st, ch, 1000, increment * (j + k + 1)⟩⟩] ∧
        (run r s1 (timerEvents (chainSchedule pre.length k))).nextTimerId
          = s1.nextTimerId + k ∧
        (run r s1 (timerEvents (chainSchedule pre.length k))).executed.length
          = s1.executed.length + k := by
  intro k
  induction k with
  | zero =>
    intro j s1 due h hdue _
    exact ⟨due, hdue, h, rfl, rfl⟩
  | succ k ih =>
    intro j s1 due h hdue hjk
    have hsched : timerEvents (chainSchedule pre.length (k + 1)) =
        Event.tick increment :: Event.fire pre.length ::
          timerEvents (chainSchedule pre.length k) := by
      simp [chainSchedule, List.replicate_succ, timerEvents]
    have hlt : ((increment * (j + 1) + increment : Nat) : ℚ) < 1000 :=
      cast_lt_duration j (by omega)
    rw [hsched, chain_step r s1 pre due _ _ h hdue,
      animateScroll_of_lt ⟨st, ch, 1000, increment * (j + 1)⟩ _ hlt]
    obtain ⟨due2, hd2, ht, hn, he⟩ := ih (j + 1)
      (setTimeout (Callback.animateScroll ⟨st, ch, 1000, increment * (j + 1) + increment⟩)
        increment
        { s1 with clock := s1.clock + increment, timers := pre,
                  executed := s1.executed ++
                    [Callback.animateScroll ⟨st, ch, 1000, increment * (j + 1)⟩] })
      (s1.clock + increment + increment) rfl (le_refl _) (by omega)
    refine ⟨due2, hd2, ?_, ?_, ?_⟩
    · rw [ht]
      have e : j + 1 + k + 1 = j + (k + 1) + 1 := by omega
      rw [e]
    · rw [hn]
      simp only [setTimeout]
      omega
    · rw [he]
      simp only [setTimeout, List.length_append, List.length_singleton]
      omega

/-- The 49th deferred callback finds `currentTime = 1000`, creates no timer and leaves
nothing of the chain pending. -/
theorem chain_last (r : Registry) (st ch : ℚ) (pre : List Timer) (s1 : Page) (due : Nat)
    (h : s1.timers = pre ++ [⟨due, Callback.animateScroll ⟨st, ch, 1000, increment * 49⟩⟩])
    (hdue : due ≤ s1.clock + increment) :
    (run r s1 (timerEvents (chainSchedule pre.length 1))).timers = pre ∧
    (run r s1 (timerEvents (chainSchedule pre.length 1))).nextTimerId = s1.nextTimerId ∧
    (run r s1 (timerEvents (chainSchedule pre.length 1))).executed.length
      = s1.executed.length + 1 := by
  have hsched : timerEvents (chainSchedule pre.length 1) =
      [Event.tick increment, Event.fire pre.length] := by
    simp [chainSchedule, timerEvents]
  have hge : ¬ ((increment * 49 + increment : Nat) : ℚ) < 1000 := by
    have : increment * 49 + increment = 1000 := by decide
    rw [this]; norm_num
  rw [hsched, chain_step r s1 pre due _ _ h hdue,
    animateScroll_of_ge ⟨st, ch, 1000, increment * 49⟩ _ hge, run_nil]
  simp

theorem timerEvents_append (a b : List (Nat × Nat)) :
    timerEvents (a ++ b) = timerEvents a ++ timerEvents b := by
  induction a with
  | nil => rfl
  | cons p rest ih =>
    obtain ⟨dt, i⟩ := p
    simp [timerEvents, ih]

theorem run_append (r : Registry) (s : Page) (a b : List Event) :
    run r s (a ++ b) = run r (run r s a) b := by
  simp [run, List.foldl_append]

theorem chainSchedule_succ (i n : Nat) :
    chainSchedule i (n + 1) = chainSchedule i n ++ chainSchedule i 1 := by
  simp [chainSchedule, List.replicate_succ']

/-- The whole chain from a state in which the first `animateScroll` timer is pending:
48 callbacks each create a timer, the 49th creates none. -/
theorem chain_complete (r : Registry) (st ch : ℚ) (pre : List Timer) (s1 : Page) (due : Nat)
    (h : s1.timers = pre ++ [⟨due, Callback.animateScroll ⟨st, ch, 1000, increment * 1⟩⟩])
    (hdue : due ≤ s1.clock + increment) :
    (run r s1 (timerEvents (chainSchedule pre.length 49))).timers = pre ∧
    (run r s1 (timerEvents (chainSchedule pre.length 49))).nextTimerId
      = s1.nextTimerId + 48 ∧
    (run r s1 (timerEvents (chainSchedule pre.length 49))).executed.length
      = s1.executed.length + 49 := by
  obtain ⟨due2, hd2, ht, hn, he⟩ := chain_run r st ch pre 48 0 s1 due h hdue (by omega)
  rw [chainSchedule_succ, timerEvents_append, run_append]
  obtain ⟨h1, h2, h3⟩ := chain_last r st ch pre _ due2 ht hd2
  exact ⟨h1, by rw [h2, hn], by rw [h3, he]⟩

theorem scrollTopOnclick_eq (s : Page) :
    scrollTopOnclick s =
      setTimeout (Callback.animateScroll
        ⟨s.rootScrollTop, 0 - s.rootScrollTop, 1000, increment * 1⟩) increment s := by
  have hlt : (((0 : Nat) + increment : Nat) : ℚ) < 1000 := by
    have : (0 : Nat) + increment < 1000 := by decide
    exact_mod_cast this
  unfold scrollTopOnclick scrollTo
  exact animateScroll_of_lt ⟨s.rootScrollTop, 0 - s.rootScrollTop, 1000, 0⟩ s hlt

/-- The delegated handler touches neither timers, nor clock, nor scroll position. -/
theorem foldl_sectionFooterClick_frame {α : Type} (l : List α) :
    ∀ s : Page,
      (l.foldl (fun s _ => sectionFooterClick s) s).timers = s.timers ∧
      (l.foldl (fun s _ => sectionFooterClick s) s).nextTimerId = s.nextTimerId ∧
      (l.foldl (fun s _ => sectionFooterClick s) s).executed = s.executed ∧
      (l.foldl (fun s _ => sectionFooterClick s) s).clock = s.clock ∧
      (l.foldl (fun s _ => sectionFooterClick s) s).rootScrollTop = s.rootScrollTop ∧
      (l.foldl (fun s _ => sectionFooterClick s) s).preloader = s.preloader ∧
      (l.foldl (fun s _ => sectionFooterClick s) s).loadedAt = s.loadedAt := by
  induction l with
  | nil => intro s; exact ⟨rfl, rfl, rfl, rfl, rfl, rfl, rfl⟩
  | cons a rest ih =>
    intro s
    rw [List.foldl_cons]
    exact ih (sectionFooterClick s)

/-- What a click on `.scroll-top` leaves behind: `scrollTo` ran with `to = 0` and
`duration = 1000`, so one `animateScroll` timer is pending, due one `increment` later,
whose closure holds `currentTime = 20`. -/
theorem dispatch_click_scrollTop (W : Int) (s : Page) (path : List String) :
    (dispatch (mainScript W) s (Event.click ClickTarget.scrollTop path)).timers =
      s.timers ++ [⟨s.clock + increment, Callback.animateScroll
        ⟨s.rootScrollTop, 0 - s.rootScrollTop, 1000, increment * 1⟩⟩] ∧
    (dispatch (mainScript W) s (Event.click ClickTarget.scrollTop path)).nextTimerId
      = s.nextTimerId + 1 ∧
    (dispatch (mainScript W) s (Event.click ClickTarget.scrollTop path)).executed
      = s.executed ∧
    (dispatch (mainScript W) s (Event.click ClickTarget.scrollTop path)).clock = s.clock := by
  rw [dispatch_click]
  obtain ⟨h1, h2, h3, h4, -⟩ := foldl_sectionFooterClick_frame
    (path.filter (fun tag => decide (tag ∈ ["section", "footer"]))) (scrollTopOnclick s)
  rw [h1, h2, h3, h4, scrollTopOnclick_eq]
  exact ⟨rfl, rfl, rfl, rfl⟩

/-- The animation chain started by a click on `.scroll-top`, counted by timer ids: the
click creates one timer, each of the first 48 deferred callbacks one more, the 49th
none. -/
theorem click_chain (W : Int) (s : Page) (path : List String) :
    (∀ k : Nat, k ≤ 48 →
      (run (mainScript W) (dispatch (mainScript W) s (Event.click ClickTarget.scrollTop path))
          (timerEvents (chainSchedule s.timers.length k))).timers.length
        = s.timers.length + 1 ∧
      (run (mainScript W) (dispatch (mainScript W) s (Event.click ClickTarget.scrollTop path))
          (timerEvents (chainSchedule s.timers.length k))).nextTimerId
        = s.nextTimerId + 1 + k) ∧
    (run (mainScript W) (dispatch (mainScript W) s (Event.click ClickTarget.scrollTop path))
        (timerEvents (chainSchedule s.timers.length 49))).timers = s.timers ∧
    (run (mainScript W) (dispatch (mainScript W) s (Event.click ClickTarget.scrollTop path))
        (timerEvents (chainSchedule s.timers.length 49))).nextTimerId = s.nextTimerId + 49 ∧
    (run (mainScript W) (dispatch (mainScript W) s (Event.click ClickTarget.scrollTop path))
        (timerEvents (chainSchedule s.timers.length 49))).executed.length
      = s.executed.length + 49 := by
  obtain ⟨ht, hn, he, hc⟩ := dispatch_click_scrollTop W s path
  have hdue : s.clock + increment ≤
      (dispatch (mainScript W) s (Event.click ClickTarget.scrollTop path)).clock + increment := by
    rw [hc]
  refine ⟨?_, ?_⟩
  · intro k hk
    obtain ⟨due2, -, ht2, hn2, -⟩ := chain_run (mainScript W) s.rootScrollTop
      (0 - s.rootScrollTop) s.timers k 0 _ _ ht hdue (by omega)
    rw [ht2, hn2, hn]
    simp
  · obtain ⟨h1, h2, h3⟩ := chain_complete (mainScript W) s.rootScrollTop
      (0 - s.rootScrollTop) s.timers _ _ ht hdue
    rw [h1, h2, h3, hn, he]
    exact ⟨rfl, rfl, rfl⟩

theorem chainInvariant_fireTimer {st ch : ℚ} {base : Nat} {s : Page}
    (h : ChainInvariant st ch base s) (i : Nat) :
    ChainInvariant st ch base (fireTimer i s) := by
  rcases h with ⟨ht, hn⟩ | ⟨due, j, hj, ht, hn⟩
  · have : FormulaTela.fireTimer i s = s := by
      unfold FormulaTela.fireTimer
      rw [ht]; rfl
    rw [this]
    exact Or.inl ⟨ht, hn⟩
  · cases i with
    | succ i =>
      have : FormulaTela.fireTimer (i + 1) s = s := by
        unfold FormulaTela.fireTimer
        rw [ht]; rfl
      rw [this]
      exact Or.inr ⟨due, j, hj, ht, hn⟩
    | zero =>
      by_cases hdue : due ≤ s.clock
      · have hfire := fireTimer_last s [] ⟨due, Callback.animateScroll
          ⟨st, ch, 1000, increment * (j + 1)⟩⟩ (by rw [ht]; rfl) hdue
        rw [show ([] : List Timer).length = 0 from rfl] at hfire
        rw [hfire]
        show ChainInvariant st ch base
          (animateScroll ⟨st, ch, 1000, increment * (j + 1)⟩ _)
        by_cases hj2 : j ≤ 47
        · rw [animateScroll_of_lt ⟨st, ch, 1000, increment * (j + 1)⟩ _
            (cast_lt_duration j hj2)]
          refine Or.inr ⟨s.clock + increment, j + 1, by omega, rfl, ?_⟩
          show s.nextTimerId + 1 = _
          omega
        · have hj48 : j = 48 := by omega
          subst hj48
          have hge : ¬ ((increment * (48 + 1) + increment : Nat) : ℚ) < 1000 := by
            have : increment * (48 + 1) + increment = 1000 := by decide
            rw [this]; norm_num
          rw [animateScroll_of_ge ⟨st, ch, 1000, increment * (48 + 1)⟩ _ hge]
          exact Or.inl ⟨rfl, hn⟩
      · have : FormulaTela.fireTimer 0 s = s := by
          unfold FormulaTela.fireTimer
          rw [ht]
          simp [hdue]
        rw [this]
        exact Or.inr ⟨due, j, hj, ht, hn⟩

/-- On every timer schedule the chain stays within its 49 timers. -/
theorem chainInvariant_run {st ch : ℚ} {base : Nat} (r : Registry)
    (sched : List (Nat × Nat)) :
    ∀ s : Page, ChainInvariant st ch base s →
      ChainInvariant st ch base (run r s (timerEvents sched)) := by
  induction sched with
  | nil => intro s h; exact h
  | cons p rest ih =>
    intro s h
    obtain ⟨dt, i⟩ := p
    simp only [timerEvents, run_cons]
    apply ih
    apply chainInvariant_fireTimer
    exact h

theorem chainInvariant_bound {st ch : ℚ} {base : Nat} {s : Page}
    (h : ChainInvariant st ch base s) :
    s.nextTimerId ≤ base + 49 ∧ s.timers.length ≤ 1 := by
  rcases h with ⟨ht, hn⟩ | ⟨due, j, hj, ht, hn⟩
  · rw [ht, hn]; exact ⟨le_refl _, by simp⟩
  · rw [ht, hn]; exact ⟨by omega, by simp⟩

/-- After a click on `.scroll-top` of a page without pending timers, whatever the timer
schedule, at most 49 timers are ever created and at most one is pending. -/
theorem click_chain_bounded (W : Int) (s : Page) (path : List String)
    (hs : s.timers = []) (sched : List (Nat × Nat)) :
    (run (mainScript W) (dispatch (mainScript W) s (Event.click ClickTarget.scrollTop path))
        (timerEvents sched)).nextTimerId ≤ s.nextTimerId + 49 ∧
    (run (mainScript W) (dispatch (mainScript W) s (Event.click ClickTarget.scrollTop path))
        (timerEvents sched)).timers.length ≤ 1 := by
  obtain ⟨ht, hn, -, -⟩ := dispatch_click_scrollTop W s path
  rw [hs, List.nil_append] at ht
  have h0 : ChainInvariant s.rootScrollTop (0 - s.rootScrollTop) s.nextTimerId
      (dispatch (mainScript W) s (Event.click ClickTarget.scrollTop path)) :=
    Or.inr ⟨s.clock + increment, 0, by omega, ht, by rw [hn]⟩
  exact chainInvariant_bound (chainInvariant_run (mainScript W) sched _ h0)

/-! ## Claims about the scroll-to-top controller -/

/-- C4, as the claim states it, fails: on the sample page (no timer pending, no
`setTimeout` call made yet) the click and the complete chain make 49 `setTimeout`
calls, not 50; after 48 deferred callbacks one timer is still pending, after the 49th
none is. -/
theorem scrollTop_chain_count_counterexample :
    (run (mainScript 1024)
        (dispatch (mainScript 1024) samplePage (Event.click ClickTarget.scrollTop ["a", "body"]))
        (timerEvents (chainSchedule 0 48))).timers.length = 1 ∧
    (run (mainScript 1024)
        (dispatch (mainScript 1024) samplePage (Event.click ClickTarget.scrollTop ["a", "body"]))
        (timerEvents (chainSchedule 0 49))).timers = [] ∧
    (run (mainScript 1024)
        (dispatch (mainScript 1024) samplePage (Event.click ClickTarget.scrollTop ["a", "body"]))
        (timerEvents (chainSchedule 0 49))).nextTimerId = 49 ∧
    (run (mainScript 1024)
        (dispatch (mainScript 1024) samplePage (Event.click ClickTarget.scrollTop ["a", "body"]))
        (timerEvents (chainSchedule 0 49))).nextTimerId ≠ 50 := by
  have h := click_chain 1024 samplePage ["a", "body"]
  have h48 := (h.1 48 (le_refl _)).1
  have h49 := h.2.2.1
  refine ⟨h48, h.2.1, h49, ?_⟩
  rw [show samplePage.timers.length = 0 from rfl] at h49
  rw [h49]
  decide

/-- C4 amended: a click on `.scroll-top` runs `scrollTo` on the document root with
`to = 0` and `duration = 1000`; `animateScroll` then runs 50 times, once inside the click
and 49 times as a deferred callback, and makes 49 `setTimeout` calls (every run but the
last); while at most 48 deferred callbacks have run one timer of the chain is pending,
after the 49th none is, for every page state and so every starting `scrollTop`; and
when no timer was pending at the click, no timer schedule makes the chain create more
than 49 timers or keep more than one pending. -/
theorem scrollTop_click_chain (W : Int) (s : Page) (path : List String) (k : Nat)
    (hk : k ≤ 48) :
    (dispatch (mainScript W) s (Event.click ClickTarget.scrollTop path)).timers =
      s.timers ++ [⟨s.clock + increment, Callback.animateScroll
        ⟨s.rootScrollTop, 0 - s.rootScrollTop, 1000, increment * 1⟩⟩] ∧
    (dispatch (mainScript W) s (Event.click ClickTarget.scrollTop path)).nextTimerId
      = s.nextTimerId + 1 ∧
    (run (mainScript W) (dispatch (mainScript W) s (Event.click ClickTarget.scrollTop path))
        (timerEvents (chainSchedule s.timers.length k))).timers.length
      = s.timers.length + 1 ∧
    (run (mainScript W) (dispatch (mainScript W) s (Event.click ClickTarget.scrollTop path))
        (timerEvents (chainSchedule s.timers.length k))).nextTimerId
      = s.nextTimerId + 1 + k ∧
    (run (mainScript W) (dispatch (mainScript W) s (Event.click ClickTarget.scrollTop path))
        (timerEvents (chainSchedule s.timers.length 49))).timers = s.timers ∧
    (run (mainScript W) (dispatch (mainScript W) s (Event.click ClickTarget.scrollTop path))
        (timerEvents (chainSchedule s.timers.length 49))).nextTimerId = s.nextTimerId + 49 ∧
    (run (mainScript W) (dispatch (mainScript W) s (Event.click ClickTarget.scrollTop path))
        (timerEvents (chainSchedule s.timers.length 49))).executed.length
      = s.executed.length + 49 ∧
    (s.timers = [] → ∀ sched : List (Nat × Nat),
      (run (mainScript W) (dispatch (mainScript W) s (Event.click ClickTarget.scrollTop path))
          (timerEvents sched)).nextTimerId ≤ s.nextTimerId + 49 ∧
      (run (mainScript W) (dispatch (mainScript W) s (Event.click ClickTarget.scrollTop path))
          (timerEvents sched)).timers.length ≤ 1) :=
  ⟨(dispatch_click_scrollTop W s path).1, (dispatch_click_scrollTop W s path).2.1,
   ((click_chain W s path).1 k hk).1, ((click_chain W s path).1 k hk).2,
   (click_chain W s path).2.1, (click_chain W s path).2.2.1, (click_chain W s path).2.2.2,
   fun hs sched => click_chain_bounded W s path hs sched⟩

/-- Witness for C4 amended on the sample page: after 10 deferred callbacks 11 timers have
been created, and a schedule of three firings stays within 49 timers. -/
theorem scrollTop_click_chain_witness :
    (run (mainScript 1024)
        (dispatch (mainScript 1024) samplePage (Event.click ClickTarget.scrollTop ["a", "body"]))
        (timerEvents (chainSchedule samplePage.timers.length 10))).nextTimerId
      = samplePage.nextTimerId + 1 + 10 ∧
    (run (mainScript 1024)
        (dispatch (mainScript 1024) samplePage (Event.click ClickTarget.scrollTop ["a", "body"]))
        (timerEvents [(20, 0), (5, 0), (100, 0)])).nextTimerId
      ≤ samplePage.nextTimerId + 49 :=
  ⟨(scrollTop_click_chain 1024 samplePage ["a", "body"] 10 (by decide)).2.2.2.1,
   ((scrollTop_click_chain 1024 samplePage ["a", "body"] 10 (by decide)).2.2.2.2.2.2.2 rfl
      [(20, 0), (5, 0), (100, 0)]).1⟩

/-- C5: for every page state, every target `to` and every `duration`, `scrollTo` and
every later timer callback, on every timer schedule, leave the scroll position of the
root element at the value it had when `scrollTo` was called; `scrollTo` and
`animateScroll` change nothing but the pending timers and the timer counter. -/
theorem scrollTo_keeps_scrollTop (W : Int) (s : Page) (toPos duration : ℚ)
    (sched : List (Nat × Nat)) (env : ScrollClosure) :
    (scrollTo toPos duration s).rootScrollTop = s.rootScrollTop ∧
    (run (mainScript W) (scrollTo toPos duration s) (timerEvents sched)).rootScrollTop
      = s.rootScrollTop ∧
    { scrollTo toPos duration s with timers := s.timers, nextTimerId := s.nextTimerId } = s ∧
    { animateScroll env s with timers := s.timers, nextTimerId := s.nextTimerId } = s :=
  ⟨scrollTo_rootScrollTop toPos duration s,
   by rw [run_timerEvents_rootScrollTop, scrollTo_rootScrollTop],
   animateScroll_frame _ s, animateScroll_frame env s⟩

/-! ## The preloader controller -/

/-- The invariant only reads timers, run callbacks, load time, preloader and clock. -/
theorem fadeoutInvariant_of_core_eq {initial : Style} {s s' : Page}
    (h : FadeoutInvariant initial s) (h1 : s'.timers = s.timers)
    (h2 : s'.executed = s.executed) (h3 : s'.loadedAt = s.loadedAt)
    (h4 : s'.preloader = s.preloader) (h5 : s'.clock = s.clock) :
    FadeoutInvariant initial s' := by
  obtain ⟨a, b, c, d⟩ := h
  constructor
  · simpa only [pendingFadeouts, fadeoutRuns, h1, h2, h3] using a
  · simpa only [h1, h3] using b
  · simpa only [fadeoutRuns, h2, h4] using c
  · simpa only [fadeoutRuns, h2, h3, h4, h5] using d

theorem fadeoutInvariant_setTimeout {initial : Style} {s : Page}
    (h : FadeoutInvariant initial s) (env : ScrollClosure) (delay : Nat) :
    FadeoutInvariant initial (setTimeout (Callback.animateScroll env) delay s) := by
  obtain ⟨a, b, c, d⟩ := h
  constructor
  · simpa [pendingFadeouts, fadeoutRuns, setTimeout, List.count_append] using a
  · intro t ht hcb
    simp only [setTimeout, List.mem_append, List.mem_singleton] at ht
    rcases ht with ht | rfl
    · exact b t ht hcb
    · exact absurd hcb (by simp)
  · exact c
  · exact d

theorem fadeoutInvariant_animateScroll {initial : Style} {s : Page}
    (h : FadeoutInvariant initial s) (env : ScrollClosure) :
    FadeoutInvariant initial (animateScroll env s) := by
  unfold FormulaTela.animateScroll
  dsimp only
  split_ifs
  · exact fadeoutInvariant_setTimeout h _ _
  · exact h

theorem dispatch_scroll_core (W : Int) (s : Page) (P T : ℚ) :
    (dispatch (mainScript W) s (Event.scroll P T)).timers = s.timers ∧
    (dispatch (mainScript W) s (Event.scroll P T)).executed = s.executed ∧
    (dispatch (mainScript W) s (Event.scroll P T)).loadedAt = s.loadedAt ∧
    (dispatch (mainScript W) s (Event.scroll P T)).preloader = s.preloader ∧
    (dispatch (mainScript W) s (Event.scroll P T)).clock = s.clock := by
  rw [dispatch_scroll]
  by_cases h1 : W > 1200 <;> by_cases h2 : W > 11480 <;> by_cases h3 : P > T <;>
    simp [h1, h2, h3, parallax, onscrollHeader, onscrollSidebar]

/-- Taking the element at index `i` out of a list splits the list around it. -/
theorem eraseIdx_split {α : Type} :
    ∀ (l : List α) (i : Nat) (t : α), l[i]? = some t →
      ∃ l1 l2, l = l1 ++ t :: l2 ∧ l.eraseIdx i = l1 ++ l2
  | [], _, _, h => by simp at h
  | a :: l, 0, t, h => by
    simp only [List.getElem?_cons_zero, Option.some.injEq] at h
    exact ⟨[], l, by simp [h], by simp⟩
  | a :: l, i + 1, t, h => by
    simp only [List.getElem?_cons_succ] at h
    obtain ⟨l1, l2, e1, e2⟩ := eraseIdx_split l i t h
    exact ⟨a :: l1, l2, by simp [e1], by simp [e2]⟩

theorem fadeoutInvariant_fireTimer {initial : Style} {s : Page}
    (h : FadeoutInvariant initial s) (i : Nat) :
    FadeoutInvariant initial (fireTimer i s) := by
  unfold FormulaTela.fireTimer
  cases hget : s.timers[i]? with
  | none => exact h
  | some t =>
    dsimp only
    split_ifs with hdue
    · obtain ⟨l1, l2, e1, e2⟩ := eraseIdx_split s.timers i t hget
      have hmem : t ∈ s.timers := by rw [e1]; simp
      obtain ⟨a, b, c, d⟩ := h
      cases hcb : t.callback with
      | fadeout =>
        obtain ⟨t0, hl, ht0⟩ := b t hmem hcb
        constructor
        · simp only [pendingFadeouts, fadeoutRuns, e1, List.map_append, List.map_cons,
            List.count_append, hcb, List.count_cons_self] at a
          simp only [runCallback, fadeout, pendingFadeouts, fadeoutRuns, e2, List.map_append,
            List.count_append, List.count_cons_self, List.count_nil]
          omega
        · intro t' ht' hcb'
          simp only [runCallback, fadeout, e2, List.mem_append] at ht'
          have : t' ∈ s.timers := by
            rw [e1]
            rcases ht' with ht' | ht'
            · exact List.mem_append_left _ ht'
            · exact List.mem_append_right _ (List.mem_cons_of_mem _ ht')
          exact b t' this hcb'
        · intro h0
          simp [runCallback, fadeout, fadeoutRuns, List.count_append] at h0
        · intro _
          exact ⟨rfl, t0, hl, by rw [← ht0]; exact hdue⟩
      | animateScroll env =>
        have hinv : FadeoutInvariant initial
            { s with timers := s.timers.eraseIdx i,
                     executed := s.executed ++ [Callback.animateScroll env] } := by
          constructor
          · simp only [pendingFadeouts, fadeoutRuns, e1, List.map_append, List.map_cons,
              List.count_append, hcb] at a
            simp only [pendingFadeouts, fadeoutRuns, e2, List.map_append, List.count_append]
            simpa [List.count_cons] using a
          · intro t' ht' hcb'
            simp only [e2, List.mem_append] at ht'
            have : t' ∈ s.timers := by
              rw [e1]
              rcases ht' with ht' | ht'
              · exact List.mem_append_left _ ht'
              · exact List.mem_append_right _ (List.mem_cons_of_mem _ ht')
            exact b t' this hcb'
          · intro h0
            apply c
            simpa [fadeoutRuns, List.count_append, List.count_cons] using h0
          · intro h0
            apply d
            simpa [fadeoutRuns, List.count_append, List.count_cons] using h0
        exact fadeoutInvariant_animateScroll hinv env
    · exact h

theorem fadeoutInvariant_load {initial : Style} {s : Page}
    (h : FadeoutInvariant initial s) (hl : s.loadedAt = none) :
    FadeoutInvariant initial (onloadHandler { s with loadedAt := some s.clock }) := by
  obtain ⟨a, b, c, d⟩ := h
  simp only [hl, Option.isSome_none, Bool.false_eq_true, if_false] at a
  have hp : pendingFadeouts s = 0 := by omega
  have hr : fadeoutRuns s = 0 := by omega
  constructor
  · simp only [pendingFadeouts] at hp
    simp [onloadHandler, setTimeout, pendingFadeouts, fadeoutRuns, List.count_append, hp]
    exact hr
  · intro t ht hcb
    simp only [onloadHandler, setTimeout, List.mem_append, List.mem_singleton] at ht
    rcases ht with ht | rfl
    · obtain ⟨t0, h0, -⟩ := b t ht hcb
      rw [hl] at h0
      exact absurd h0 (by simp)
    · exact ⟨s.clock, rfl, rfl⟩
  · intro _
    exact c hr
  · intro h0
    have : fadeoutRuns s = fadeoutRuns (onloadHandler { s with loadedAt := some s.clock }) := rfl
    omega

theorem fadeoutInvariant_dispatch {initial : Style} {s : Page}
    (h : FadeoutInvariant initial s) (W : Int) (e : Event) :
    FadeoutInvariant initial (dispatch (mainScript W) s e) := by
  cases e with
  | load =>
    simp only [FormulaTela.dispatch]
    cases hl : s.loadedAt with
    | some t0 => exact h
    | none =>
      simp only [mainScript_windowOnload, runSlot, runListener]
      exact fadeoutInvariant_load h hl
  | scroll P T =>
    obtain ⟨h1, h2, h3, h4, h5⟩ := dispatch_scroll_core W s P T
    exact fadeoutInvariant_of_core_eq h h1 h2 h3 h4 h5
  | click target path =>
    rw [dispatch_click]
    obtain ⟨h1, -, h3, h4, -, h6, h7⟩ := foldl_sectionFooterClick_frame
      (path.filter (fun tag => decide (tag ∈ ["section", "footer"])))
      (match target with
        | ClickTarget.navbarToggler => navbarTogglerClick s
        | ClickTarget.scrollTop => scrollTopOnclick s
        | ClickTarget.other => s)
    refine fadeoutInvariant_of_core_eq ?_ h1 h3 h7 h6 h4
    cases target with
    | navbarToggler => exact fadeoutInvariant_of_core_eq h rfl rfl rfl rfl rfl
    | scrollTop =>
      show FadeoutInvariant initial (scrollTopOnclick s)
      rw [scrollTopOnclick_eq]
      exact fadeoutInvariant_setTimeout h _ _
    | other => exact h
  | tick dt =>
    obtain ⟨a, b, c, d⟩ := h
    refine ⟨a, b, c, ?_⟩
    intro h0
    obtain ⟨hp, t0, hl, ht0⟩ := d h0
    exact ⟨hp, t0, hl, Nat.le_trans ht0 (Nat.le_add_right _ _)⟩
  | fire i => exact fadeoutInvariant_fireTimer h i

theorem fadeoutInvariant_run {initial : Style} (W : Int) (es : List Event) :
    ∀ s : Page, FadeoutInvariant initial s →
      FadeoutInvariant initial (run (mainScript W) s es) := by
  induction es with
  | nil => intro s h; exact h
  | cons e rest ih =>
    intro s h
    rw [run_cons]
    exact ih _ (fadeoutInvariant_dispatch h W e)

theorem fadeoutInvariant_fresh (navbarArea leftArea navbarToggler : ClassList) (shown : Bool)
    (bg : BackgroundPosition) (preloader : Style) (scrollTop : ℚ) :
    FadeoutInvariant preloader
      (freshPage navbarArea leftArea navbarToggler shown bg preloader scrollTop) :=
  ⟨rfl, fun _ ht => absurd ht (List.not_mem_nil _), fun _ => rfl,
   fun h => absurd h (Nat.lt_irrefl 0)⟩

/-- One event writes both preloader properties or neither. -/
theorem dispatch_preloader (W : Int) (s : Page) (e : Event) :
    (dispatch (mainScript W) s e).preloader = s.preloader ∨
    (dispatch (mainScript W) s e).preloader = ⟨"0", "none"⟩ := by
  cases e with
  | load =>
    left
    simp only [dispatch, mainScript_windowOnload]
    cases s.loadedAt <;> rfl
  | scroll P T => exact Or.inl (dispatch_scroll_core W s P T).2.2.2.1
  | click target path =>
    left
    rw [dispatch_click]
    rw [(foldl_sectionFooterClick_frame _ _).2.2.2.2.2.1]
    cases target with
    | navbarToggler => rfl
    | scrollTop =>
      show (scrollTopOnclick s).preloader = _
      rw [scrollTopOnclick_eq]; rfl
    | other => rfl
  | tick dt => exact Or.inl rfl
  | fire i =>
    simp only [dispatch, fireTimer]
    cases s.timers[i]? with
    | none => exact Or.inl rfl
    | some t =>
      dsimp only
      split_ifs
      · cases t.callback with
        | fadeout => exact Or.inr rfl
        | animateScroll env =>
          left
          simp only [runCallback, animateScroll, setTimeout]
          split_ifs <;> rfl
      · exact Or.inl rfl

theorem run_load_then_fire (W : Int) (navbarArea leftArea navbarToggler : ClassList)
    (shown : Bool) (bg : BackgroundPosition) (preloader : Style) (scrollTop : ℚ) :
    fadeoutRuns (run (mainScript W)
        (freshPage navbarArea leftArea navbarToggler shown bg preloader scrollTop)
        [Event.load, Event.tick 200, Event.fire 0]) = 1 ∧
    (run (mainScript W)
        (freshPage navbarArea leftArea navbarToggler shown bg preloader scrollTop)
        [Event.load, Event.tick 200, Event.fire 0]).preloader = ⟨"0", "none"⟩ ∧
    (run (mainScript W)
        (freshPage navbarArea leftArea navbarToggler shown bg preloader scrollTop)
        [Event.load, Event.tick 199, Event.fire 0]).preloader = preloader := by
  simp [run, dispatch, freshPage, mainScript_windowOnload, runSlot, runListener,
    onloadHandler, setTimeout, fireTimer, runCallback, fadeout, fadeoutRuns]

/-! ## Claim about the preloader controller -/

/-- C9: for the page as a step system over preloader style, pending timers and clock,
started from a fresh page and driven by any sequence of events: `fadeout` runs at most
once, from the single timer that the `load` handler creates; while the page has not
loaded, or fewer than 200 time units have passed since it loaded, `fadeout` has not run
and the preloader style is the initial one; once `fadeout` has run the opacity is "0" and
the display "none"; the run does happen when the timer fires 200 after `load` (and not
at 199); and any single event writes both properties or neither. -/
theorem preloader_hidden_once (W : Int) (navbarArea leftArea navbarToggler : ClassList)
    (shown : Bool) (bg : BackgroundPosition) (preloader : Style) (scrollTop : ℚ)
    (es : List Event) (s : Page) (e : Event) :
    let sN := run (mainScript W)
      (freshPage navbarArea leftArea navbarToggler shown bg preloader scrollTop) es
    fadeoutRuns sN ≤ 1 ∧
    pendingFadeouts sN + fadeoutRuns sN = (if sN.loadedAt.isSome then 1 else 0) ∧
    (sN.loadedAt = none → fadeoutRuns sN = 0 ∧ sN.preloader = preloader) ∧
    (∀ t0 : Nat, sN.loadedAt = some t0 → sN.clock < t0 + 200 →
      fadeoutRuns sN = 0 ∧ sN.preloader = preloader) ∧
    (fadeoutRuns sN = 0 → sN.preloader = preloader) ∧
    (fadeoutRuns sN = 1 → sN.preloader = ⟨"0", "none"⟩) ∧
    fadeoutRuns (run (mainScript W)
        (freshPage navbarArea leftArea navbarToggler shown bg preloader scrollTop)
        [Event.load, Event.tick 200, Event.fire 0]) = 1 ∧
    (run (mainScript W)
        (freshPage navbarArea leftArea navbarToggler shown bg preloader scrollTop)
        [Event.load, Event.tick 200, Event.fire 0]).preloader = ⟨"0", "none"⟩ ∧
    (run (mainScript W)
        (freshPage navbarArea leftArea navbarToggler shown bg preloader scrollTop)
        [Event.load, Event.tick 199, Event.fire 0]).preloader = preloader ∧
    ((dispatch (mainScript W) s e).preloader = s.preloader ∨
      (dispatch (mainScript W) s e).preloader = ⟨"0", "none"⟩) := by
  intro sN
  have inv : FadeoutInvariant preloader sN :=
    fadeoutInvariant_run W es _
      (fadeoutInvariant_fresh navbarArea leftArea navbarToggler shown bg preloader scrollTop)
  obtain ⟨a, _, c, d⟩ := inv
  have hle : fadeoutRuns sN ≤ 1 := by
    split_ifs at a <;> omega
  refine ⟨hle, a, ?_, ?_, c, ?_, ?_⟩
  · intro hl
    have h0 : fadeoutRuns sN = 0 := by
      rw [hl] at a
      simp only [Option.isSome_none, Bool.false_eq_true, if_false] at a
      omega
    exact ⟨h0, c h0⟩
  · intro t0 hl hlt
    have h0 : fadeoutRuns sN = 0 := by
      by_contra hne
      obtain ⟨-, t1, hl1, hge⟩ := d (Nat.pos_of_ne_zero hne)
      rw [hl] at hl1
      cases hl1
      omega
    exact ⟨h0, c h0⟩
  · intro h1
    exact (d (by omega)).1
  · obtain ⟨r1, r2, r3⟩ := run_load_then_fire W navbarArea leftArea navbarToggler shown bg
      preloader scrollTop
    exact ⟨r1, r2, r3, dispatch_preloader W s e⟩

/-- Witness for C9 on the sample page: after `load` and 150 time units, with the timer
asked to fire, the preloader still has opacity "1" and display "block". -/
theorem preloader_hidden_once_witness :
    (run (mainScript 1024) samplePage [Event.load, Event.tick 150, Event.fire 0]).preloader
      = ⟨"1", "block"⟩ :=
  ((preloader_hidden_once 1024 ["navbar-area"] ["left-area"] ["navbar-toggler", "active"] true
      ⟨0, 0⟩ ⟨"1", "block"⟩ 0 [Event.load, Event.tick 150, Event.fire 0] samplePage
      Event.load).2.2.2.1 0 (by decide) (by decide)).2

end FormulaTela
